import Mathlib

/-!
# homebridge-xbox-tv: packet codec front end and device accessory

A shallow embedding of `src/localApi/packer.js` (class `PACKER`) and of the parts of
`src/xboxdevice.js` (class `XboxDevice`) that the verified properties talk about.

Conventions of the embedding

* a JavaScript string is the list of its UTF-16 code units (`JsString`), a Node.js `Buffer`
  is the list of its bytes (`Bytes`);
* `x.slice(a, b)` with constant non-negative bounds is `(x.drop a).take (b - a)` and
  `x.slice(a)` is `x.drop a`, both for strings and for buffers;
* a call that may throw returns an `Outcome`;
* modules that `packer.js` and `xboxdevice.js` require but that are not part of the sources
  (`simple.js`, `message.js`, `constans.json`, `constants.json`) are parameters.
-/

namespace XboxTv

/-! ## JavaScript values used by `packer.js` -/

/-- A JavaScript string, as the list of its UTF-16 code units. -/
abbrev JsString := List Nat

/-- One byte of a Node.js `Buffer`. -/
abbrev Byte := Fin 256

/-- A Node.js `Buffer`. -/
abbrev Bytes := List Byte

/-- The code units of a string literal of the source. -/
def lit (s : String) : JsString := s.data.map Char.toNat

/-- The lowercase hexadecimal digit (as a code unit) of a value below 16. -/
def hexDigit (n : Nat) : Nat := if n < 10 then 48 + n else 87 + n

/-- The result of `buf.toString('hex')`: two lowercase hex digits per byte. -/
def toHex (b : Bytes) : JsString :=
  b.flatMap (fun x => [hexDigit (x.val / 16), hexDigit (x.val % 16)])

/-- The argument `type` of `new PACKER(type)`: the callers pass a type name (a string, when a
packet is built for sending) or a received datagram (a `Buffer`). -/
inductive JsArg where
  | str (s : JsString)
  | buf (b : Bytes)
  deriving DecidableEq, Repr

namespace JsArg

/-- The expression `x.slice(a, b)`. -/
def slice (x : JsArg) (a b : Nat) : JsArg :=
  match x with
  | str s => str ((s.drop a).take (b - a))
  | buf d => buf ((d.drop a).take (b - a))

/-- The expression `x.slice(a)`. -/
def sliceFrom (x : JsArg) (a : Nat) : JsArg :=
  match x with
  | str s => str (s.drop a)
  | buf d => buf (d.drop a)

/-- The expression `x.toString('hex')`. `String.prototype.toString` ignores its argument and
returns the string; `Buffer.prototype.toString('hex')` renders the bytes in hexadecimal. -/
def toStringHex (x : JsArg) : JsString :=
  match x with
  | str s => s
  | buf d => toHex d

/-- The loose comparison `x == s` against an ASCII string literal `s`. Two strings are compared
by code units. A `Buffer` is first converted by `Buffer.prototype.toString()`, which decodes
it as UTF-8; the decoding is an ASCII string exactly when every byte is the code of the
corresponding character. -/
def looseEq (x : JsArg) (s : JsString) : Bool :=
  match x with
  | str t => t == s
  | buf d => d.map Fin.val == s

end JsArg

/-! ## `packer.js` -/

/-- The table `CONSTANS.Types` of `constans.json`, which maps a type code (four hex digits)
to a type name. The file is not part of the sources: the table is a parameter. `k in Types` is
`(Types k).isSome` and `Types[k]` is the value. (The `in` operator also sees the properties
inherited from `Object.prototype`; none of them has a name of at most four code units, which
is all that `type.slice(0, 2).toString('hex')` can produce.) -/
abbrev TypeTable := JsString → Option JsString

/-- The two classes `loadPacketStructure` instantiates. -/
inductive PacketClass where
  | SimplePacket
  | MessagePacket
  deriving DecidableEq, Repr

/-- What a call can end with: a returned value, or a thrown error. -/
inductive Thrown (E : Type) where
  /-- The `TypeError` of the JavaScript runtime for calling a property that is not a
  function (here: a method of `false`). -/
  | typeError
  /-- An error thrown by the code of a packet class. -/
  | byPacket (e : E)
  deriving DecidableEq, Repr

/-- The outcome of a call. -/
inductive Outcome (R E : Type) where
  | returned (r : R)
  | threw (e : Thrown E)
  deriving DecidableEq, Repr

/-- The packet classes `SimplePacket` (`simple.js`) and `MessagePacket` (`message.js`) are not
part of the sources. Their behaviour is a parameter: `S` is the internal state of a packet
object, `K` and `V` are the keys and values of `set`, `X` is the `xboxlocalapi` argument, `R` is
what `pack` and `unpack` return, `E` is what their code throws. The constructors are taken to
return an object. -/
structure PacketImpl (S K V X R E : Type) where
  /-- The expression `new SimplePacket(name, value)` or `new MessagePacket(name, value)`;
  `value = none` is the default `false`. -/
  create : PacketClass → JsArg → Option JsArg → S
  /-- The call `set(key, value, protectedPayload)`. -/
  set : PacketClass → S → K → V → Bool → Outcome Unit E × S
  /-- The call `pack(xboxlocalapi)`. -/
  pack : PacketClass → S → Option X → Outcome R E × S
  /-- The call `unpack(xboxlocalapi)`. -/
  unpack : PacketClass → S → Option X → Outcome R E × S

/-- A packet object: the class and the constructor arguments it was built from, and its
current internal state. -/
structure PacketObject (S : Type) where
  cls : PacketClass
  name : JsArg
  value : Option JsArg
  state : S
  deriving DecidableEq, Repr

/-- The object `new cls(name, value)`. -/
def PacketObject.fresh {S K V X R E : Type} (impl : PacketImpl S K V X R E)
    (cls : PacketClass) (name : JsArg) (value : Option JsArg) : PacketObject S :=
  { cls := cls, name := name, value := value, state := impl.create cls name value }

/-- An instance of `PACKER`: its only field is `packetStructure`, a packet object or `false`
(`none`). -/
structure PACKER (S : Type) where
  packetStructure : Option (PacketObject S)
  deriving DecidableEq, Repr

namespace PACKER

variable {S K V X R E : Type}

/-- The method `loadPacketStructure(type, value = false)`. -/
def loadPacketStructure (impl : PacketImpl S K V X R E) (type : JsArg)
    (value : Option JsArg) : Option (PacketObject S) :=
  if (type.slice 0 6).looseEq (lit "simple") then
    some (PacketObject.fresh impl PacketClass.SimplePacket (type.sliceFrom 7) value)
  else if (type.slice 0 7).looseEq (lit "message") then
    some (PacketObject.fresh impl PacketClass.MessagePacket (type.sliceFrom 8) value)
  else
    none

/-- The code `type.slice(0, 2).toString('hex')` of the constructor. -/
def packetType (type : JsArg) : JsString := (type.slice 0 2).toStringHex

/-- The constructor `new PACKER(type)`. -/
def new (impl : PacketImpl S K V X R E) (Types : TypeTable) (type : JsArg) : PACKER S :=
  match Types (packetType type) with
  | some typeName =>
    let packetValue := type
    { packetStructure := loadPacketStructure impl (JsArg.str typeName) (some packetValue) }
  | none =>
    { packetStructure := loadPacketStructure impl type none }

/-- The method `set(key, value, protectedPayload = false)`: the call is forwarded to the packet
object; on `false` the property `set` is not a function. -/
def set (impl : PacketImpl S K V X R E) (p : PACKER S) (key : K) (value : V)
    (protectedPayload : Bool) : Outcome Unit E × PACKER S :=
  match p.packetStructure with
  | none => (Outcome.threw Thrown.typeError, p)
  | some o =>
    let r := impl.set o.cls o.state key value protectedPayload
    (r.1, { packetStructure := some { o with state := r.2 } })

/-- The method `pack(xboxlocalapi = undefined)`. -/
def pack (impl : PacketImpl S K V X R E) (p : PACKER S) (xboxlocalapi : Option X) :
    Outcome R E × PACKER S :=
  match p.packetStructure with
  | none => (Outcome.threw Thrown.typeError, p)
  | some o =>
    let r := impl.pack o.cls o.state xboxlocalapi
    (r.1, { packetStructure := some { o with state := r.2 } })

/-- The method `unpack(xboxlocalapi = undefined)`. -/
def unpack (impl : PacketImpl S K V X R E) (p : PACKER S) (xboxlocalapi : Option X) :
    Outcome R E × PACKER S :=
  match p.packetStructure with
  | none => (Outcome.threw Thrown.typeError, p)
  | some o =>
    let r := impl.unpack o.cls o.state xboxlocalapi
    (r.1, { packetStructure := some { o with state := r.2 } })

/-- The class of the packet structure a `PACKER` holds (`none` for `false`). -/
def structureClass (p : PACKER S) : Option PacketClass := p.packetStructure.map (·.cls)

/-- The type name the packet structure was built with (`none` for `false`). -/
def structureName (p : PACKER S) : Option JsArg := p.packetStructure.map (·.name)

/-- The value the packet structure was built from (`none` for `false`, `some none` for a
structure built with the default `false`). -/
def structureValue (p : PACKER S) : Option (Option JsArg) := p.packetStructure.map (·.value)

end PACKER

namespace PACKER

variable {S K V X R E : Type}

/-- Which packet structure a `PACKER` holds: the class and the constructor arguments of the
object its field refers to, `none` for `false`. -/
def held (p : PACKER S) : Option (PacketClass × JsArg × Option JsArg) :=
  p.packetStructure.map (fun o => (o.cls, o.name, o.value))

end PACKER

/-- The calls a program makes on the codec; `i` numbers the `PACKER` instances in the order of
their creation. -/
inductive PackerCall (K V X : Type) where
  | construct (type : JsArg)
  | set (i : Nat) (key : K) (value : V) (protectedPayload : Bool)
  | pack (i : Nat) (xboxlocalapi : Option X)
  | unpack (i : Nat) (xboxlocalapi : Option X)

/-- The effect of one call on the `PACKER` instances that exist. -/
def applyCall {S K V X R E : Type} (impl : PacketImpl S K V X R E) (Types : TypeTable)
    (w : List (PACKER S)) (c : PackerCall K V X) : List (PACKER S) :=
  match c with
  | PackerCall.construct type => w ++ [PACKER.new impl Types type]
  | PackerCall.set i key value protectedPayload =>
    match w[i]? with
    | some p => w.set i (PACKER.set impl p key value protectedPayload).2
    | none => w
  | PackerCall.pack i xboxlocalapi =>
    match w[i]? with
    | some p => w.set i (PACKER.pack impl p xboxlocalapi).2
    | none => w
  | PackerCall.unpack i xboxlocalapi =>
    match w[i]? with
    | some p => w.set i (PACKER.unpack impl p xboxlocalapi).2
    | none => w

/-- The effect of a sequence of calls. -/
def runCalls {S K V X R E : Type} (impl : PacketImpl S K V X R E) (Types : TypeTable)
    (w : List (PACKER S)) (calls : List (PackerCall K V X)) : List (PACKER S) :=
  calls.foldl (applyCall impl Types) w

/-- A type table of the shape the code expects (type codes of four hex digits, names
`simple.<name>` and `message`), for concrete evaluations. -/
def sampleTypes : TypeTable := fun k =>
  if k = lit "d00d" then some (lit "message")
  else if k = lit "cc00" then some (lit "simple.connectRequest")
  else if k = lit "cc01" then some (lit "simple.connectResponse")
  else if k = lit "dd00" then some (lit "simple.discoveryRequest")
  else if k = lit "dd01" then some (lit "simple.discoveryResponse")
  else if k = lit "dd02" then some (lit "simple.powerOn")
  else none

/-- A packet implementation for concrete evaluations: a packet object records nothing,
and `pack` and `unpack` return the class they were called on. -/
def sampleImpl : PacketImpl Unit Unit Unit Unit PacketClass Unit where
  create := fun _ _ _ => ()
  set := fun _ s _ _ _ => (Outcome.returned (), s)
  pack := fun c s _ => (Outcome.returned c, s)
  unpack := fun c s _ => (Outcome.returned c, s)

/-! ## `xboxdevice.js`: the inputs of the constructor -/

/-- An input: an entry of `CONSTANTS.DefaultInputs`, of the configuration (`device.inputs`) or
of the saved inputs file. The entries are JSON objects whose properties are strings when
present; `none` is `undefined`. -/
structure Input where
  name : Option String
  reference : Option String
  titleId : Option String := none
  oneStoreProductId : Option String := none
  contentType : Option String := none
  deriving DecidableEq, Repr

/-- JavaScript truthiness of a property that is a string or `undefined`: a non-empty string. -/
def truthy (v : Option String) : Bool :=
  match v with
  | some s => s != ""
  | none => false

/-- The body of the loop of the constructor over `tempInputs` (`//add configured inputs to the
default inputs and chack duplicated inputs`): the input is pushed to `inputsArr` when its name
and reference are truthy and no input pushed so far has the same reference. -/
def pushInput (inputsArr : List Input) (input : Input) : List Input :=
  let inputName := input.name
  let inputReference := input.reference
  let duplicatedInput := inputsArr.any (fun input => input.reference == inputReference)
  if truthy inputName && truthy inputReference && !duplicatedInput then inputsArr ++ [input]
  else inputsArr

/-- The loop `for (const input of tempInputs)` of the constructor, from `inputsArr = []`. -/
def dedupInputs (tempInputs : List Input) : List Input :=
  tempInputs.foldl pushInput []

/-- The field `this.inputs` at the end of the constructor. `DefaultInputs` is the table
`CONSTANTS.DefaultInputs` of `constants.json`, which is not part of the sources; `deviceInputs`
is `device.inputs`, `none` when the configuration has no such property
(`this.inputs = device.inputs || []`). -/
def constructorInputs (DefaultInputs : List Input) (deviceInputs : Option (List Input)) :
    List Input :=
  let inputs := deviceInputs.getD []
  let tempInputs := DefaultInputs ++ inputs
  dedupInputs tempInputs

/-- An input is valid when its name and its reference are non-empty strings. -/
def Input.valid (x : Input) : Bool := truthy x.name && truthy x.reference

/-- Whether the entry at position `i` of `l` is the first valid entry of `l` with its
reference: it is valid and no valid entry before it has the same reference. -/
def firstValidAt (l : List Input) (i : Nat) : Bool :=
  match l[i]? with
  | some x => x.valid && !((l.take i).any (fun y => y.valid && y.reference == x.reference))
  | none => false

/-- The description of the input list in words: the entries of `l`, in their order, that are
the first valid entry with their reference. -/
def firstValidPerReference (l : List Input) : List Input :=
  ((List.range l.length).filter (firstValidAt l)).filterMap (fun i => l[i]?)

/-! ## `xboxdevice.js`: the device and its handlers

The handlers are `async` functions and event listeners. A handler is embedded as a function
from the device before the call to a `Result`: the device after the call, what the handler did
to its collaborators (HomeKit services, the web API and local API clients, the event emitter),
the value it returned and the error it let escape. What an awaited call of a collaborator
answers is an argument of the handler (`callError`: the rejection, if any). -/

/-- A sensor of `device.sensorInputs`; `state` is the property the constructor adds. -/
structure SensorInput where
  name : Option String
  reference : Option String
  displayType : Option Nat
  withNamePrefix : Bool := false
  state : Bool := false
  deriving DecidableEq, Repr

/-- A button of `device.buttons`; `state` is the property the constructor adds. -/
structure Button where
  name : Option String
  command : Option String
  oneStoreProductId : Option String := none
  reference : Option String := none
  displayType : Option Nat
  withNamePrefix : Bool := false
  state : Bool := false
  deriving DecidableEq, Repr

/-- An input after the inputs loop of `prepareAccessory` wrote `reference`, `name`,
`visibility` and `identifier` into it. -/
structure ConfiguredInput where
  name : String
  reference : Option String
  titleId : Option String
  oneStoreProductId : Option String
  contentType : Option String
  visibility : Nat
  identifier : Nat
  deriving DecidableEq, Repr

/-- The HomeKit services the accessory creates. -/
inductive Service where
  | AccessoryInformation
  | Television
  | TelevisionSpeaker
  | InputSource (identifier : Nat)
  | VolumeLightbulb
  | VolumeFan
  | PowerSensor
  | InputSensor
  | ScreenSaverSensor
  | SensorInput (i : Nat)
  | Button (i : Nat)
  deriving DecidableEq, Repr

/-- A characteristic value. -/
inductive HapValue where
  | bool (b : Bool)
  | num (n : Nat)
  | str (s : String)
  | undefined
  deriving DecidableEq, Repr

/-- What a handler does to its collaborators. The text of an `error` event ends with the
rendering of the caught error. -/
inductive Effect where
  | emit (event : String) (text : String)
  | updateCharacteristic (service : Service) (characteristic : String) (value : HapValue)
  | setCharacteristic (service : Service) (characteristic : String) (value : HapValue)
  | setDisplayOrder (identifiers : List Nat)
  | webApiSend (channelName : Option String) (command : Option String)
      (payload : Option (String × Option String))
  | powerOn
  | powerOff
  | recordGameDvr
  | restFulUpdate (path : String) (data : String)
  | mqttPublish (topic : String) (message : String)
  | saveData (file : String)
  | publishAccessory
  deriving DecidableEq, Repr

/-- The `device` object of the configuration, as far as the embedded code reads it; `none` is a
missing property. -/
structure DeviceConfig where
  name : String
  xboxLiveId : String
  webApiControl : Option Bool := none
  webApiPowerOnOff : Option Bool := none
  getInputsFromDevice : Option Bool := none
  filterGames : Option Bool := none
  filterApps : Option Bool := none
  filterSystemApps : Option Bool := none
  filterDlc : Option Bool := none
  inputs : Option (List Input) := none
  buttons : Option (List Button) := none
  sensorPower : Option Bool := none
  sensorInput : Option Bool := none
  sensorScreenSaver : Option Bool := none
  sensorInputs : Option (List SensorInput) := none
  enableDebugMode : Option Bool := none
  disableLogInfo : Option Bool := none
  disableLogDeviceInfo : Option Bool := none
  infoButtonCommand : Option String := none
  volumeControl : Option Nat := none
  enableRestFul : Option Bool := none
  enableMqtt : Option Bool := none
  deriving DecidableEq, Repr

/-- The fields of an `XboxDevice` instance. A service field (`televisionService`, ...) is `true`
once the service object exists. -/
structure XboxDevice where
  -- device configuration
  name : String
  xboxLiveId : String
  webApiControl : Bool
  webApiPowerOnOff : Option Bool
  getInputsFromDevice : Option Bool
  filterGames : Bool
  filterApps : Bool
  filterSystemApps : Bool
  filterDlc : Bool
  inputs : List Input
  sensorPower : Bool
  sensorInput : Bool
  sensorScreenSaver : Bool
  enableDebugMode : Bool
  disableLogInfo : Bool
  disableLogDeviceInfo : Bool
  infoButtonCommand : String
  volumeControl : Nat
  enableRestFul : Bool
  enableMqtt : Bool
  -- external integration
  restFulConnected : Bool := false
  mqttConnected : Bool := false
  restFul : Bool := false
  mqtt : Bool := false
  -- accessory services
  allServices : List Service := []
  sensorsInputsServices : List Service := []
  buttonsServices : List Service := []
  inputsConfigured : List ConfiguredInput := []
  inputIdentifier : Nat := 1
  -- state variable
  power : Bool := false
  volume : Nat := 0
  mute : Bool := true
  mediaState : Nat := 0
  reference : String := ""
  -- sensors variable
  sensorsInputsConfigured : List SensorInput
  sensorScreenSaverState : Bool := false
  sensorInputState : Bool := false
  -- buttons variable
  buttonsConfigured : List Button
  -- set by the handlers
  modelName : Option String := none
  savedInputs : List Input := []
  savedInputsNames : List (String × String) := []
  savedInputsTargetVisibility : List (String × Nat) := []
  informationService : Bool := false
  televisionService : Bool := false
  speakerService : Bool := false
  volumeService : Bool := false
  volumeServiceFan : Bool := false
  sensorPowerService : Bool := false
  sensorInputService : Bool := false
  sensorScreenSaverService : Bool := false
  deriving DecidableEq, Repr

/-- The result of running a handler. -/
structure Result where
  device : XboxDevice
  effects : List Effect := []
  value : Option HapValue := none
  thrown : Option String := none
  deriving DecidableEq, Repr

/-- The cached state snapshot of the device: `power`, `volume`, `mute`, `mediaState`,
`reference`. -/
def XboxDevice.snapshot (d : XboxDevice) : Bool × Nat × Bool × Nat × String :=
  (d.power, d.volume, d.mute, d.mediaState, d.reference)

/-- The constructor `new XboxDevice(api, prefDir, device)`, up to the creation of the two API
clients. `DefaultInputs` is `CONSTANTS.DefaultInputs`. (The `message` events the constructor
emits for sensors and buttons it skips are not recorded.) -/
def XboxDevice.new (DefaultInputs : List Input) (device : DeviceConfig) : XboxDevice :=
  let webApiControl := device.webApiControl.getD false
  { name := device.name
    xboxLiveId := device.xboxLiveId
    webApiControl := webApiControl
    webApiPowerOnOff := if webApiControl then device.webApiPowerOnOff else some false
    getInputsFromDevice := if webApiControl then device.getInputsFromDevice else some false
    filterGames := device.filterGames.getD false
    filterApps := device.filterApps.getD false
    filterSystemApps := device.filterSystemApps.getD false
    filterDlc := device.filterDlc.getD false
    inputs := constructorInputs DefaultInputs device.inputs
    sensorPower := device.sensorPower.getD false
    sensorInput := device.sensorInput.getD false
    sensorScreenSaver := device.sensorScreenSaver.getD false
    enableDebugMode := device.enableDebugMode.getD false
    disableLogInfo := device.disableLogInfo.getD false
    disableLogDeviceInfo := device.disableLogDeviceInfo.getD false
    infoButtonCommand := if truthy device.infoButtonCommand then device.infoButtonCommand.getD ""
      else "nexus"
    volumeControl := device.volumeControl.getD 0
    enableRestFul := device.enableRestFul.getD false
    enableMqtt := device.enableMqtt.getD false
    sensorsInputsConfigured :=
      ((device.sensorInputs.getD []).filter (fun sensor =>
        truthy sensor.name && truthy sensor.reference && decide (sensor.displayType.getD 0 > 0))).map
        (fun sensor => { sensor with state := false })
    buttonsConfigured :=
      ((device.buttons.getD []).filter (fun button =>
        truthy button.name && truthy button.command && decide (button.displayType.getD 0 > 0))).map
        (fun button => { button with state := false }) }

/-- The rendering of a property in a template string. -/
def jsStr (v : Option String) : String :=
  match v with
  | some s => s
  | none => "undefined"

/-- The call `await this.xboxWebApi.send(channelName, command, payload)` inside a `try`: what is
sent and the error that is caught, if any. The client `this.xboxWebApi` exists only when
`webApiControl` is set; without it the call is a `TypeError`. -/
def webApiSend (d : XboxDevice) (channelName : Option String) (command : Option String)
    (payload : Option (String × Option String)) (callError : Option String) :
    List Effect × Option String :=
  if d.webApiControl then ([Effect.webApiSend channelName command payload], callError)
  else ([], some "TypeError: Cannot read properties of undefined (reading 'send')")

/-- The expression `this.disableLogInfo ? false : this.emit('message', text)`. -/
def logInfo (d : XboxDevice) (text : String) : List Effect :=
  if d.disableLogInfo then [] else [Effect.emit "message" text]

/-- The end of a `try` block that awaited a call: the log line when nothing was thrown, the
`error` event of the `catch` otherwise. -/
def logOrError (d : XboxDevice) (error : Option String) (text : String) (errorText : String) :
    List Effect :=
  match error with
  | none => logInfo d text
  | some e => [Effect.emit "error" (errorText ++ e)]

namespace XboxDevice

/-! ### Listeners of the web API client -/

/-- The listener of `consoleStatus`. -/
def onConsoleStatus (d : XboxDevice) (consoleType : String) : Result :=
  { device := { d with modelName := some consoleType }
    effects := if d.informationService then
        [Effect.setCharacteristic Service.AccessoryInformation "Model" (HapValue.str consoleType)]
      else [] }

/-- The listener of `powerOnError`. -/
def onPowerOnError (d : XboxDevice) (power : Bool) : Result :=
  { device := { d with power := power }
    effects := if d.televisionService then
        [Effect.updateCharacteristic Service.Television "Active" (HapValue.bool power)]
      else [] }

/-- The listeners of `message`, `debug`, `error`, `restFul` and `mqtt` of the web API client, and
of `message`, `debug`, `error` and `disconnected` of the local API client: the event is emitted
again on the device (`disconnected` as `message`). -/
def onForward (d : XboxDevice) (event : String) (text : String) : Result :=
  { device := d, effects := [Effect.emit event text] }

/-! ### Listeners of the local API client -/

/-- The listener of `deviceInfo`. -/
def onDeviceInfo (d : XboxDevice) (firmwareRevision : String) (locale : String) : Result :=
  { device := d
    effects := [Effect.emit "message" "Connected."]
      ++ (if !d.disableLogDeviceInfo then
          [Effect.emit "devInfo" ("-------- " ++ d.name ++ " --------'"),
           Effect.emit "devInfo" "Manufacturer: Microsoft",
           Effect.emit "devInfo" ("Model: " ++ d.modelName.getD "Xbox"),
           Effect.emit "devInfo" ("Serialnr: " ++ d.xboxLiveId),
           Effect.emit "devInfo" ("Firmware: " ++ firmwareRevision),
           Effect.emit "devInfo" ("Locale: " ++ locale),
           Effect.emit "devInfo" "----------------------------------"]
        else [])
      ++ (if d.informationService then
          [Effect.setCharacteristic Service.AccessoryInformation "Manufacturer"
            (HapValue.str "Microsoft"),
           Effect.setCharacteristic Service.AccessoryInformation "FirmwareRevision"
            (HapValue.str firmwareRevision)]
        else []) }

/-- The loop of `stateChanged` over the configured input sensors, from index `i`: the state of a
sensor is written, then its service is updated. The service `sensorsInputsServices[i]` is
`undefined` when `prepareAccessory` did not create it, and the update then throws. Returns the
sensors, the updates and whether the loop threw. -/
def updateSensorsInputs (power : Bool) (reference : String) (services : List Service) :
    Nat → List SensorInput → List SensorInput × List Effect × Bool
  | _, [] => ([], [], false)
  | i, sensorInput :: rest =>
    let state := if power then sensorInput.reference == some reference else false
    let sensorInput := { sensorInput with state := state }
    match services[i]? with
    | none => (sensorInput :: rest, [], true)
    | some service =>
      let r := updateSensorsInputs power reference services (i + 1) rest
      (sensorInput :: r.1,
        Effect.updateCharacteristic service "characteristicType" (HapValue.bool state) :: r.2.1,
        r.2.2)

/-- The loop of `stateChanged` over the configured buttons, from index `i`; `power` is
`this.power`, the value before the event. -/
def updateButtons (power : Bool) (reference : String) (services : List Service) :
    Nat → List Button → List Button × List Effect × Bool
  | _, [] => ([], [], false)
  | i, button :: rest =>
    let state := if power then button.reference == some reference else false
    let button := { button with state := state }
    match services[i]? with
    | none => (button :: rest, [], true)
    | some service =>
      let r := updateButtons power reference services (i + 1) rest
      (button :: r.1, Effect.updateCharacteristic service "On" (HapValue.bool state) :: r.2.1,
        r.2.2)

/-- The label of the `Media State` message of `stateChanged`. -/
def mediaStateLabel (mediaState : Nat) : String :=
  jsStr (["PLAY", "PAUSE", "STOPPED", "LOADING", "INTERRUPTED"][mediaState]?)

/-- The `TypeError` of calling a method of `undefined`. -/
def undefinedServiceError : String :=
  "TypeError: Cannot read properties of undefined (reading 'updateCharacteristic')"

/-- The listener of `stateChanged`, `//update characteristics` for the television, speaker,
volume and power sensor services. -/
def stateChangedUpdates (d : XboxDevice) (power : Bool) (volume : Nat) (mute : Bool)
    (inputIdentifier : Nat) : List Effect :=
  (if d.televisionService then
      [Effect.updateCharacteristic Service.Television "Active" (HapValue.bool power),
       Effect.updateCharacteristic Service.Television "ActiveIdentifier"
        (HapValue.num inputIdentifier)]
    else [])
  ++ (if d.speakerService then
      [Effect.updateCharacteristic Service.TelevisionSpeaker "Volume" (HapValue.num volume),
       Effect.updateCharacteristic Service.TelevisionSpeaker "Mute" (HapValue.bool mute)]
      ++ (if d.volumeService then
          [Effect.updateCharacteristic Service.VolumeLightbulb "Brightness"
            (HapValue.num volume),
           Effect.updateCharacteristic Service.VolumeLightbulb "On" (HapValue.bool !mute)]
        else [])
      ++ (if d.volumeServiceFan then
          [Effect.updateCharacteristic Service.VolumeFan "RotationSpeed" (HapValue.num volume),
           Effect.updateCharacteristic Service.VolumeFan "On" (HapValue.bool !mute)]
        else [])
    else [])
  ++ (if d.sensorPowerService then
      [Effect.updateCharacteristic Service.PowerSensor "ContactSensorState"
        (HapValue.bool power)]
    else [])

/-- The listener of `stateChanged`, the input sensor: when the reference changed, the sensor is
set to `power ? [true, false][i] : false` for `i = 0, 1`, and `sensorInputState` keeps the
last of the two values. -/
def updateInputSensor (d : XboxDevice) (power : Bool) (reference : String) :
    XboxDevice × List Effect :=
  if d.sensorInputService && reference != d.reference then
    ({ d with sensorInputState := if power then false else false },
      [Effect.updateCharacteristic Service.InputSensor "ContactSensorState"
        (HapValue.bool (if power then true else false)),
       Effect.updateCharacteristic Service.InputSensor "ContactSensorState"
        (HapValue.bool (if power then false else false))])
  else (d, [])

/-- The listener of `stateChanged`, the screen saver sensor. -/
def updateScreenSaverSensor (d : XboxDevice) (power : Bool) (reference : String) :
    XboxDevice × List Effect :=
  let state := if power then
      reference == "Xbox.IdleScreen_8wekyb3d8bbwe!Xbox.IdleScreen.Application"
    else false
  if d.sensorScreenSaverService then
    ({ d with sensorScreenSaverState := state },
      [Effect.updateCharacteristic Service.ScreenSaverSensor "ContactSensorState"
        (HapValue.bool state)])
  else (d, [])

/-- The listener of `stateChanged`, the messages it logs at its end. -/
def stateChangedLog (d : XboxDevice) (found : Option ConfiguredInput) (power : Bool)
    (volume : Nat) (mute : Bool) (mediaState : Nat) (titleId : String) (reference : String) :
    List Effect :=
  let name := match found with
    | some input => input.name
    | none => reference
  let productId := match found with
    | some input => jsStr input.oneStoreProductId
    | none => reference
  if !d.disableLogInfo then
    [Effect.emit "message" ("Power: " ++ (if power then "ON" else "OFF")),
     Effect.emit "message" ("Input Name: " ++ name),
     Effect.emit "message" ("Reference: " ++ reference),
     Effect.emit "message" ("Title Id: " ++ titleId),
     Effect.emit "message" ("Product Id: " ++ productId),
     Effect.emit "message" ("Volume: " ++ toString volume ++ "%"),
     Effect.emit "message" ("Mute: " ++ (if mute then "ON" else "OFF")),
     Effect.emit "message" ("Media State: " ++ mediaStateLabel mediaState)]
  else []

/-- The listener of `stateChanged`. The loops over the input sensors and over the buttons throw
when a service is missing, and the assignments of the state follow the loops. -/
def onStateChanged (d : XboxDevice) (power : Bool) (volume : Nat) (mute : Bool)
    (mediaState : Nat) (titleId : String) (reference : String) : Result :=
  let found := d.inputsConfigured.find?
    (fun input => input.reference == some reference || input.titleId == some titleId)
  let inputIdentifier := match found with
    | some input => input.identifier
    | none => d.inputIdentifier
  -- update characteristics
  let e := stateChangedUpdates d power volume mute inputIdentifier
  let s1 := updateInputSensor d power reference
  let s2 := updateScreenSaverSensor s1.1 power reference
  let sensors := updateSensorsInputs power reference s2.1.sensorsInputsServices 0
    s2.1.sensorsInputsConfigured
  let d := { s2.1 with sensorsInputsConfigured := sensors.1 }
  if sensors.2.2 then
    { device := d, effects := e ++ s1.2 ++ s2.2 ++ sensors.2.1,
      thrown := some undefinedServiceError }
  else
    -- buttons
    let buttons := updateButtons d.power reference d.buttonsServices 0 d.buttonsConfigured
    let d := { d with buttonsConfigured := buttons.1 }
    if buttons.2.2 then
      { device := d, effects := e ++ s1.2 ++ s2.2 ++ sensors.2.1 ++ buttons.2.1,
        thrown := some undefinedServiceError }
    else
      { device := { d with
          inputIdentifier := inputIdentifier
          power := power
          reference := reference
          volume := volume
          mute := mute
          mediaState := mediaState }
        effects := e ++ s1.2 ++ s2.2 ++ sensors.2.1 ++ buttons.2.1
          ++ stateChangedLog d found power volume mute mediaState titleId reference }

/-- The listeners of `restFul` and `mqtt` of the local API client. -/
def onRestFul (d : XboxDevice) (path : String) (data : String) : Result :=
  { device := d, effects := if d.restFulConnected then [Effect.restFulUpdate path data] else [] }

/-- The listener of `mqtt` of the local API client. -/
def onMqtt (d : XboxDevice) (topic : String) (message : String) : Result :=
  { device := d, effects := if d.mqttConnected then [Effect.mqttPublish topic message] else [] }

end XboxDevice

/-! ### `prepareAccessory` -/

/-- The property `o[key]` of an object used as a dictionary. -/
def objGet {α : Type} (o : List (String × α)) (key : String) : Option α :=
  (o.find? (fun p => p.1 == key)).map (fun p => p.2)

/-- The assignment `o[key] = value`. -/
def objSet {α : Type} (o : List (String × α)) (key : String) (value : α) : List (String × α) :=
  if o.any (fun p => p.1 == key) then o.map (fun p => if p.1 == key then (key, value) else p)
  else o ++ [(key, value)]

/-- The content of the files the `prepareAccessory` listener reads: for each file the error of
reading or parsing it, or the parsed content. For the inputs file `none` is the empty file. -/
structure SavedFiles where
  devInfo : Except String Unit
  inputs : Except String (Option (List Input))
  inputsNames : Except String (List (String × String))
  inputsTargetVisibility : Except String (List (String × Nat))

/-- The tables `CONSTANTS.LocalApi.Channels.System.{Media,Input,TvRemote}.Commands` of
`constants.json`, which is not part of the sources: whether a command is a key of each. -/
structure CommandTables where
  media : String → Bool
  input : String → Bool
  tvRemote : String → Bool

namespace XboxDevice

/-- The body of the loop `//filter unnecessary inputs` of `prepareAccessory`. -/
def pushFiltered (d : XboxDevice) (filteredInputsArr : List Input) (input : Input) :
    List Input :=
  let contentType := input.contentType
  let filterGames := if d.filterGames then contentType == some "Game" else false
  let filterApps := if d.filterApps then contentType == some "App" else false
  let filterSystemApps := if d.filterSystemApps then contentType == some "systemApp" else false
  let filterDlc := if d.filterDlc then contentType == some "Dlc" else false
  if d.getInputsFromDevice == some true then
    (if !filterGames && !filterApps && !filterSystemApps && !filterDlc then
      filteredInputsArr ++ [input]
    else filteredInputsArr)
  else filteredInputsArr ++ [input]

/-- The loop `//filter unnecessary inputs` of `prepareAccessory`. -/
def filterInputs (d : XboxDevice) (savedInputs : List Input) : List Input :=
  savedInputs.foldl (pushFiltered d) []

/-- The number of inputs the inputs loop of `prepareAccessory` runs over
(`//check possible inputs count (max 85)`). -/
def maxInputsCount (d : XboxDevice) (inputs : List Input) : Int :=
  let inputsCount : Int := inputs.length
  let possibleInputsCount : Int := 85 - d.allServices.length
  if inputsCount ≥ possibleInputsCount then possibleInputsCount else inputsCount

/-- One pass of the inputs loop of `prepareAccessory`, for the index `i`: the properties it
writes into the input. -/
def configureInput (d : XboxDevice) (i : Nat) (input : Input) : ConfiguredInput :=
  let inputIdentifier := i + 1
  let inputReference := if truthy input.reference then input.reference else input.titleId
  let name := input.name.getD ("Input " ++ toString inputIdentifier)
  let savedInputsNames := objGet d.savedInputsNames (jsStr inputReference)
  let inputName := if !truthy savedInputsNames then name else savedInputsNames.getD ""
  let currentVisibility := (objGet d.savedInputsTargetVisibility (jsStr inputReference)).getD 0
  { name := inputName
    reference := inputReference
    titleId := input.titleId
    oneStoreProductId := input.oneStoreProductId
    contentType := input.contentType
    visibility := currentVisibility
    identifier := inputIdentifier }

/-- The inputs loop of `prepareAccessory` from index `i`. -/
def inputsLoop (d : XboxDevice) : Nat → List Input → XboxDevice
  | _, [] => d
  | i, input :: rest =>
    let configured := configureInput d i input
    inputsLoop { d with
      inputsConfigured := d.inputsConfigured ++ [configured]
      allServices := d.allServices ++ [Service.InputSource (i + 1)] } (i + 1) rest

/-- The loop of `prepareAccessory` over the configured input sensors from index `i`. The
service class of a sensor is `['', MotionSensor, OccupancySensor, ContactSensor][displayType]`;
it is `undefined` for a display type above 3 and `new serviceType(...)` then throws. Returns the
device and whether the loop threw. -/
def sensorsLoop (d : XboxDevice) : Nat → List SensorInput → XboxDevice × Bool
  | _, [] => (d, false)
  | i, sensorInput :: rest =>
    if sensorInput.displayType.getD 0 > 3 then (d, true)
    else
      sensorsLoop { d with
        sensorsInputsServices := d.sensorsInputsServices ++ [Service.SensorInput i]
        allServices := d.allServices ++ [Service.SensorInput i] } (i + 1) rest

/-- The loop of `prepareAccessory` over the configured buttons from index `i`. The service class
of a button is `['', Outlet, Switch][displayType]`. -/
def buttonsLoop (d : XboxDevice) : Nat → List Button → XboxDevice × Bool
  | _, [] => (d, false)
  | i, button :: rest =>
    if button.displayType.getD 0 > 2 then (d, true)
    else
      buttonsLoop { d with
        buttonsServices := d.buttonsServices ++ [Service.Button i]
        allServices := d.allServices ++ [Service.Button i] } (i + 1) rest

/-- The number of sensor or button services `prepareAccessory` creates for `count` configured
ones: `99 - this.allServices.length`, when `count` is not below it. -/
def maxCount (d : XboxDevice) (count : Nat) : Int :=
  let possibleCount : Int := 99 - d.allServices.length
  if (count : Int) ≥ possibleCount then possibleCount else count

/-- The `TypeError` of `new serviceType(...)` for an `undefined` service class. -/
def serviceTypeError : String := "TypeError: serviceType is not a constructor"

/-- The method `prepareAccessory()`, information, television and speaker services: each is
created and pushed to `allServices`. -/
def prepareMainServices (d : XboxDevice) : XboxDevice :=
  let d := { d with
    informationService := true
    allServices := d.allServices ++ [Service.AccessoryInformation] }
  let d := { d with televisionService := true, allServices := d.allServices ++ [Service.Television] }
  { d with speakerService := true, allServices := d.allServices ++ [Service.TelevisionSpeaker] }

/-- The method `prepareAccessory()`, `//prepare inputs service`: the saved inputs are filtered
and an input service is created for the first `maxInputsCount` of them. -/
def prepareInputs (d : XboxDevice) : XboxDevice :=
  let inputs := filterInputs d d.savedInputs
  inputsLoop d 0 (inputs.take (maxInputsCount d inputs).toNat)

/-- The method `prepareAccessory()`, `//Prepare volume service`. -/
def prepareVolumeService (d : XboxDevice) : XboxDevice :=
  let d := if d.volumeControl = 1 then
      { d with volumeService := true, allServices := d.allServices ++ [Service.VolumeLightbulb] }
    else d
  if d.volumeControl = 2 then
    { d with volumeServiceFan := true, allServices := d.allServices ++ [Service.VolumeFan] }
  else d

/-- The method `prepareAccessory()`, `//prepare sensor service`: the power, input and screen
saver sensors. -/
def prepareSensorServices (d : XboxDevice) : XboxDevice :=
  let d := if d.sensorPower then
      { d with sensorPowerService := true, allServices := d.allServices ++ [Service.PowerSensor] }
    else d
  let d := if d.sensorInput then
      { d with sensorInputService := true, allServices := d.allServices ++ [Service.InputSensor] }
    else d
  if d.sensorScreenSaver then
    { d with
      sensorScreenSaverService := true
      allServices := d.allServices ++ [Service.ScreenSaverSensor] }
  else d

/-- The method `prepareAccessory()`: the device when the promise settles, and the error when it
is rejected. -/
def prepareAccessory (d : XboxDevice) : XboxDevice × Option String :=
  let d := prepareMainServices d
  let d := prepareInputs d
  let d := prepareVolumeService d
  let d := prepareSensorServices d
  let sensors := sensorsLoop d 0
    (d.sensorsInputsConfigured.take (maxCount d d.sensorsInputsConfigured.length).toNat)
  if sensors.2 then (sensors.1, some serviceTypeError)
  else
    let d := sensors.1
    let buttons := buttonsLoop d 0
      (d.buttonsConfigured.take (maxCount d d.buttonsConfigured.length).toNat)
    if buttons.2 then (buttons.1, some serviceTypeError) else (buttons.1, none)

/-- The method `displayOrder()`: the field `inputsDisplayOrder` it switches on is never
assigned, so no case sorts; the order of the identifiers is written to the television
service. -/
def displayOrder (d : XboxDevice) : List Effect :=
  [Effect.setDisplayOrder (d.inputsConfigured.map (fun input => input.identifier))]

/-- The listener of `prepareAccessory`, `//RESTFul server` and `//mqtt client`: the two
integrations are created when they are enabled. -/
def startIntegrations (d : XboxDevice) : XboxDevice :=
  let d := if d.enableRestFul then { d with restFul := true } else d
  if d.enableMqtt then { d with mqtt := true } else d

/-- The listener of `prepareAccessory`, reading the saved files one after the other: the
device, and the error of the first file that cannot be read or parsed. The saved inputs of an
empty inputs file are `this.inputs`. -/
def readSavedFiles (d : XboxDevice) (files : SavedFiles) : XboxDevice × Option String :=
  match files.devInfo with
  | Except.error e => (d, some e)
  | Except.ok _ =>
    match files.inputs with
    | Except.error e => (d, some e)
    | Except.ok savedInputs =>
      let d := { d with savedInputs := savedInputs.getD d.inputs }
      match files.inputsNames with
      | Except.error e => (d, some e)
      | Except.ok savedInputsNames =>
        let d := { d with savedInputsNames := savedInputsNames }
        match files.inputsTargetVisibility with
        | Except.error e => (d, some e)
        | Except.ok savedInputsTargetVisibility =>
          ({ d with savedInputsTargetVisibility := savedInputsTargetVisibility }, none)

/-- The listener of `prepareAccessory` of the local API client. -/
def onPrepareAccessory (d : XboxDevice) (files : SavedFiles) : Result :=
  let fail (d : XboxDevice) (e : String) : Result :=
    { device := d, effects := [Effect.emit "error" ("prepare accessory error: " ++ e)] }
  let read := readSavedFiles (startIntegrations d) files
  match read.2 with
  | some e => fail read.1 e
  | none =>
    let r := prepareAccessory read.1
    match r.2 with
    | some e => fail r.1 e
    | none =>
      { device := r.1
        effects := [Effect.publishAccessory]
          ++ (if r.1.televisionService then displayOrder r.1 else []) }

/-- The listener of `connected` of the RESTFul server. -/
def onRestFulConnected (d : XboxDevice) (message : String) : Result :=
  { device := { d with restFulConnected := true }, effects := [Effect.emit "message" message] }

/-- The listener of `connected` of the MQTT client. -/
def onMqttConnected (d : XboxDevice) (message : String) : Result :=
  { device := { d with mqttConnected := true }, effects := [Effect.emit "message" message] }

/-- A value received over MQTT. -/
inductive MqttValue where
  | bool (b : Bool)
  | str (s : String)
  deriving DecidableEq, Repr

/-- The rendering of an MQTT value in a template string. -/
def MqttValue.render (v : MqttValue) : String :=
  match v with
  | MqttValue.bool b => if b then "true" else "false"
  | MqttValue.str s => s

/-- What the listener of `subscribedMessage` of the MQTT client sends for a key and a value,
and the error its `try` catches. -/
def mqttCommand (d : XboxDevice) (key : String) (value : MqttValue)
    (callError : Option String) : List Effect × Option String :=
  if key = "Power" then
    match d.webApiPowerOnOff, value with
    | some true, MqttValue.bool true => webApiSend d (some "Power") (some "WakeUp") none callError
    | some true, MqttValue.bool false =>
      webApiSend d (some "Power") (some "TurnOff") none callError
    | some false, MqttValue.bool true => ([Effect.powerOff], callError)
    | some false, MqttValue.bool false => ([Effect.powerOn], callError)
    | _, _ => ([], none)
  else if key = "App" then
    webApiSend d (some "Shell") (some "ActivateApplicationWithOneStoreProductId")
      (some ("oneStoreProductId", some value.render)) callError
  else if key = "Volume" then
    if value = MqttValue.str "up" then webApiSend d (some "Volume") (some "Up") none callError
    else if value = MqttValue.str "down" then
      webApiSend d (some "Volume") (some "Down") none callError
    else ([], none)
  else if key = "Mute" then
    match value with
    | MqttValue.bool true => webApiSend d (some "Audio") (some "Mute") none callError
    | MqttValue.bool false => webApiSend d (some "Audio") (some "Unmute") none callError
    | _ => ([], none)
  else if key = "RcControl" then
    webApiSend d (some "Shell") (some "InjectKey") (some ("keyType", some value.render))
      callError
  else
    ([Effect.emit "message"
      ("MQTT Received unknown key: " ++ key ++ ", value: " ++ value.render)], none)

/-- The listener of `subscribedMessage` of the MQTT client. -/
def onMqttSubscribedMessage (d : XboxDevice) (key : String) (value : MqttValue)
    (callError : Option String) : Result :=
  let r := mqttCommand d key value callError
  { device := d
    effects := r.1 ++ (match r.2 with
      | some e => [Effect.emit "error" ("MQTT send error: " ++ e ++ ".")]
      | none => []) }

end XboxDevice

/-! ### Characteristic handlers registered by `prepareAccessory` -/

namespace XboxDevice

/-- A getter that returns `value`. -/
def getter (d : XboxDevice) (value : HapValue) : Result :=
  { device := d, value := some value }

/-- Television `Active`, `onSet`. -/
def activeOnSet (d : XboxDevice) (state : Bool) (callError : Option String) : Result :=
  if d.power == state then { device := d }
  else
    let r : List Effect × Option String :=
      match d.webApiPowerOnOff with
      | some true =>
        let command := if d.power then "TurnOff" else "WakeUp"
        webApiSend d (some "Power") (some command) none callError
      | some false => if d.power then ([Effect.powerOff], callError) else ([Effect.powerOn], callError)
      | none => ([], none)
    { device := d
      effects := r.1 ++ logOrError d r.2 ("set Power: " ++ (if state then "ON" else "OFF"))
        "set Power, error: " }

/-- The channel, command and payload that launch the input or button with the given product
id. -/
def launchCommand (oneStoreProductId : Option String) :
    String × String × Option (String × Option String) :=
  if oneStoreProductId ∈ [some "Dashboard", some "Settings", some "SettingsTv", some "Accessory",
      some "Screensaver", some "NetworkTroubleshooter", some "MicrosoftStore"] then
    ("Shell", "GoHome", none)
  else if oneStoreProductId = some "Television" then ("TV", "ShowGuide", none)
  else if oneStoreProductId = some "XboxGuide" then
    ("Shell", "ShowGuideTab", some ("tabName", some "Guide"))
  else
    ("Shell", "ActivateApplicationWithOneStoreProductId",
      some ("oneStoreProductId", oneStoreProductId))

/-- Television `ActiveIdentifier`, `onSet`. With the power off the handler waits four seconds
and reads `this.power` again: `powerAfterWait` is the value it then finds. -/
def activeIdentifierOnSet (d : XboxDevice) (activeIdentifier : Nat) (powerAfterWait : Bool)
    (callError : Option String) : Result :=
  match d.inputsConfigured.find? (fun input => input.identifier == activeIdentifier) with
  | none =>
    { device := d
      effects := [Effect.emit "error" "set Input error: {}"] }
  | some input =>
    if !d.power then
      { device := d
        effects := if powerAfterWait then
            [Effect.setCharacteristic Service.Television "ActiveIdentifier"
              (HapValue.num activeIdentifier)]
          else [] }
    else
      let c := launchCommand input.oneStoreProductId
      let r := webApiSend d (some c.1) (some c.2.1) c.2.2 callError
      { device := d
        effects := r.1 ++ logOrError d r.2
          ("set Input: " ++ input.name ++ ", Reference: " ++ jsStr input.reference
            ++ ", Product Id: " ++ jsStr input.oneStoreProductId)
          "set Input error: " }

/-- The command of a remote key (`switch (remoteKey)`). -/
def remoteKeyCommand (d : XboxDevice) (remoteKey : Nat) : Option String :=
  match remoteKey with
  | 0 => some "rewind"
  | 1 => some "fastForward"
  | 2 => some "nextTrack"
  | 3 => some "previousTrack"
  | 4 => some "up"
  | 5 => some "down"
  | 6 => some "left"
  | 7 => some "right"
  | 8 => some "a"
  | 9 => some "b"
  | 10 => some "nexus"
  | 11 => some "playPause"
  | 15 => some d.infoButtonCommand
  | _ => none

/-- Television `RemoteKey`, `onSet`. -/
def remoteKeyOnSet (d : XboxDevice) (remoteKey : Nat) (callError : Option String) : Result :=
  let command := remoteKeyCommand d remoteKey
  let channelName := if command.isSome then some "Shell" else none
  let r := webApiSend d channelName (some "InjectKey") (some ("keyType", command)) callError
  { device := d
    effects := r.1 ++ logOrError d r.2 ("Remote Key: " ++ jsStr command) "set Remote Key error: " }

/-- Television `CurrentMediaState` and `TargetMediaState`, `onGet`:
`[2, 0, 1, 3, 4][this.mediaState]`. -/
def mediaStateOnGet (d : XboxDevice) : Result :=
  getter d (match [2, 0, 1, 3, 4][d.mediaState]? with
    | some value => HapValue.num value
    | none => HapValue.undefined)

/-- Television `TargetMediaState`, `onSet`. -/
def targetMediaStateOnSet (d : XboxDevice) (value : Nat) : Result :=
  { device := d
    effects := logInfo d ("set Target Media: "
      ++ jsStr (["PLAY", "PAUSE", "STOP", "LOADING", "INTERRUPTED"][value]?)) }

/-- Television `PowerModeSelection`, `onSet`. -/
def powerModeSelectionOnSet (d : XboxDevice) (powerModeSelection : Nat)
    (callError : Option String) : Result :=
  let command := match powerModeSelection with
    | 0 => some "nexus"
    | 1 => some "b"
    | _ => none
  let channelName := if command.isSome then some "Shell" else none
  let r := webApiSend d channelName (some "InjectKey") (some ("keyType", command)) callError
  { device := d
    effects := r.1 ++ logOrError d r.2
      ("set Power Mode Selection: " ++ (if powerModeSelection = 0 then "SHOW" else "HIDE"))
      "set Power Mode Selection error: " }

/-- Speaker `VolumeSelector`, `onSet`. -/
def volumeSelectorOnSet (d : XboxDevice) (volumeSelector : Nat) (callError : Option String) :
    Result :=
  let command := match volumeSelector with
    | 0 => some "Up"
    | 1 => some "Down"
    | _ => none
  let channelName := if command.isSome then some "Volume" else none
  let r := webApiSend d channelName command none callError
  { device := d
    effects := r.1 ++ logOrError d r.2
      ("set Volume Selector: " ++ (if volumeSelector ≠ 0 then "Down" else "UP"))
      "set Volume Selector error: " }

/-- Speaker `Volume`, `onSet`: the handler assigns to `volume`, which is declared nowhere; the
file is in strict mode, so the assignment throws and the promise of the handler is rejected. -/
def volumeOnSet (d : XboxDevice) (_value : Nat) : Result :=
  { device := d, thrown := some "ReferenceError: volume is not defined" }

/-- Speaker `Mute`, `onSet`: the `switch` reads `volumeSelector`, which is declared nowhere in
the handler; the `ReferenceError` is caught by the `catch` of the handler. -/
def muteOnSet (d : XboxDevice) (_state : Bool) : Result :=
  { device := d
    effects := [Effect.emit "error"
      "set Mute error: ReferenceError: volumeSelector is not defined"] }

/-- The assignment `this.inputsConfigured[index].name = value` for the first input with the
given reference. -/
def renameFirst (inputs : List ConfiguredInput) (inputReference : Option String)
    (value : String) : List ConfiguredInput :=
  match inputs with
  | [] => []
  | input :: rest =>
    if input.reference == inputReference then { input with name := value } :: rest
    else input :: renameFirst rest inputReference value

/-- Input `ConfiguredName`, `onSet`, of the input service created for `inputReference`;
`callError` is the rejection of `saveData`. -/
def configuredNameOnSet (d : XboxDevice) (inputReference : Option String) (value : String)
    (callError : Option String) : Result :=
  if some value = objGet d.savedInputsNames (jsStr inputReference) then { device := d }
  else
    let d := { d with savedInputsNames := objSet d.savedInputsNames (jsStr inputReference) value }
    match callError with
    | some e =>
      { device := d, effects := [Effect.emit "error" ("save Input Name error: " ++ e)] }
    | none =>
      if d.enableDebugMode then
        { device := d
          effects := [Effect.saveData "inputsNames",
            Effect.emit "error"
              "save Input Name error: ReferenceError: nameIdentifier is not defined"] }
      else if d.inputsConfigured.any (fun input => input.reference == inputReference) then
        let d := { d with
          inputsConfigured := renameFirst d.inputsConfigured inputReference value }
        { device := d, effects := Effect.saveData "inputsNames" :: displayOrder d }
      else
        { device := d
          effects := [Effect.saveData "inputsNames",
            Effect.emit "error" "save Input Name error: TypeError"] }

/-- Input `TargetVisibilityState`, `onSet`, of the input service created for `inputReference`;
`callError` is the rejection of `saveData`. -/
def targetVisibilityOnSet (d : XboxDevice) (inputReference : Option String) (state : Nat)
    (callError : Option String) : Result :=
  if some state = objGet d.savedInputsTargetVisibility (jsStr inputReference) then
    { device := d }
  else
    { device := { d with savedInputsTargetVisibility :=
        (objSet d.savedInputsTargetVisibility (jsStr inputReference) state) }
      effects := match callError with
        | some e => [Effect.emit "error" ("save Target Visibility error: " ++ e)]
        | none => [Effect.saveData "inputsTargetVisibility"] }

/-- Volume service (`Brightness` of the light bulb, `RotationSpeed` of the fan), `onSet`. -/
def volumeServiceOnSet (d : XboxDevice) (volume : Nat) : Result :=
  { device := d
    effects := [Effect.setCharacteristic Service.TelevisionSpeaker "Volume"
      (HapValue.num volume)] }

/-- Volume service `On`, `onSet`. -/
def volumeServiceOnOnSet (d : XboxDevice) (state : Bool) : Result :=
  { device := d
    effects := [Effect.setCharacteristic Service.TelevisionSpeaker "Mute"
      (HapValue.bool !state)] }

/-- The mode of a button (`//get button mode`). -/
def buttonMode (tables : CommandTables) (buttonCommand : Option String) : Option Nat :=
  match buttonCommand with
  | none => none
  | some c =>
    if tables.media c then some 0
    else if tables.input c then some 1
    else if tables.tvRemote c then some 2
    else if c = "recordGameDvr" then some 3
    else if c = "reboot" then some 4
    else if c = "switchAppGame" then some 5
    else none

/-- What the `onSet` handler of a button sends, and the error its `try` catches. -/
def buttonCommand (d : XboxDevice) (tables : CommandTables) (button : Button) (state : Bool)
    (callError : Option String) : List Effect × Option String :=
  match buttonMode tables button.command with
  | some 0 | some 1 | some 2 =>
    if state then webApiSend d (some "Shell") (some "InjectKey") (some ("keyType", button.command))
      callError
    else ([], none)
  | some 3 => if d.power && state then ([Effect.recordGameDvr], callError) else ([], none)
  | some 4 =>
    if d.power && state then webApiSend d (some "Power") (some "Reboot") none callError
    else ([], none)
  | some 5 =>
    if button.oneStoreProductId = some "Not set"
        ∨ button.oneStoreProductId = some "Web api disabled" then
      ([Effect.emit "message" ("trying to launch App/Game with one store product id: "
        ++ jsStr button.oneStoreProductId ++ ".")], none)
    else if d.power && state then
      let c := launchCommand button.oneStoreProductId
      webApiSend d (some c.1) (some c.2.1) c.2.2 callError
    else ([], none)
  | _ => ([], none)

/-- Button `On`, `onSet`, of the button service created for `buttonsConfigured[i]`. -/
def buttonOnSet (d : XboxDevice) (tables : CommandTables) (i : Nat) (state : Bool)
    (callError : Option String) : Result :=
  match d.buttonsConfigured[i]? with
  | none => { device := d }
  | some button =>
    let r := buttonCommand d tables button state callError
    match r.2 with
    | none => { device := d, effects := r.1 }
    | some e =>
      { device := { d with buttonsConfigured :=
          (d.buttonsConfigured.set i { button with state := false }) }
        effects := r.1 ++ [Effect.emit "error" ("set Button error: " ++ e)] }

end XboxDevice

/-- The listeners the constructor registers (directly, or through the `prepareAccessory`
listener and the method `prepareAccessory`), with the arguments of a call. -/
inductive Handler where
  -- web API client
  | webConsoleStatus (consoleType : String)
  | webPowerOnError (power : Bool)
  | webForward (event : String) (text : String)
  -- local API client
  | deviceInfo (firmwareRevision : String) (locale : String)
  | stateChanged (power : Bool) (volume : Nat) (mute : Bool) (mediaState : Nat)
      (titleId : String) (reference : String)
  | prepareAccessory (files : SavedFiles)
  | localForward (event : String) (text : String)
  | restFul (path : String) (data : String)
  | mqtt (topic : String) (message : String)
  -- RESTFul server and MQTT client
  | restFulConnected (message : String)
  | mqttConnected (message : String)
  | mqttSubscribedMessage (key : String) (value : XboxDevice.MqttValue)
      (callError : Option String)
  | integrationForward (event : String) (text : String)
  -- television service
  | activeOnGet
  | activeOnSet (state : Bool) (callError : Option String)
  | activeIdentifierOnGet
  | activeIdentifierOnSet (activeIdentifier : Nat) (powerAfterWait : Bool)
      (callError : Option String)
  | remoteKeyOnSet (remoteKey : Nat) (callError : Option String)
  | currentMediaStateOnGet
  | targetMediaStateOnGet
  | targetMediaStateOnSet (value : Nat)
  | powerModeSelectionOnSet (powerModeSelection : Nat) (callError : Option String)
  -- speaker service
  | speakerActiveOnGet
  | speakerActiveOnSet (state : Bool)
  | volumeControlTypeOnGet
  | volumeSelectorOnSet (volumeSelector : Nat) (callError : Option String)
  | volumeOnGet
  | volumeOnSet (value : Nat)
  | muteOnGet
  | muteOnSet (state : Bool)
  -- input services
  | configuredNameOnGet (inputName : String)
  | configuredNameOnSet (inputReference : Option String) (value : String)
      (callError : Option String)
  | targetVisibilityOnGet (currentVisibility : Nat)
  | targetVisibilityOnSet (inputReference : Option String) (state : Nat)
      (callError : Option String)
  -- volume services
  | volumeServiceOnGet
  | volumeServiceOnSet (volume : Nat)
  | volumeServiceOnOnGet
  | volumeServiceOnOnSet (state : Bool)
  -- sensor services
  | sensorPowerOnGet
  | sensorInputOnGet
  | sensorScreenSaverOnGet
  | sensorsInputsOnGet (i : Nat)
  -- button services
  | buttonOnGet (i : Nat)
  | buttonOnSet (i : Nat) (state : Bool) (callError : Option String)

/-- Running a handler on the device. -/
def handle (tables : CommandTables) (d : XboxDevice) (h : Handler) : Result :=
  match h with
  | Handler.webConsoleStatus consoleType => d.onConsoleStatus consoleType
  | Handler.webPowerOnError power => d.onPowerOnError power
  | Handler.webForward event text => d.onForward event text
  | Handler.deviceInfo firmwareRevision locale => d.onDeviceInfo firmwareRevision locale
  | Handler.stateChanged power volume mute mediaState titleId reference =>
    d.onStateChanged power volume mute mediaState titleId reference
  | Handler.prepareAccessory files => d.onPrepareAccessory files
  | Handler.localForward event text => d.onForward event text
  | Handler.restFul path data => d.onRestFul path data
  | Handler.mqtt topic message => d.onMqtt topic message
  | Handler.restFulConnected message => d.onRestFulConnected message
  | Handler.mqttConnected message => d.onMqttConnected message
  | Handler.mqttSubscribedMessage key value callError =>
    d.onMqttSubscribedMessage key value callError
  | Handler.integrationForward event text => d.onForward event text
  | Handler.activeOnGet => d.getter (HapValue.bool d.power)
  | Handler.activeOnSet state callError => d.activeOnSet state callError
  | Handler.activeIdentifierOnGet => d.getter (HapValue.num d.inputIdentifier)
  | Handler.activeIdentifierOnSet activeIdentifier powerAfterWait callError =>
    d.activeIdentifierOnSet activeIdentifier powerAfterWait callError
  | Handler.remoteKeyOnSet remoteKey callError => d.remoteKeyOnSet remoteKey callError
  | Handler.currentMediaStateOnGet => d.mediaStateOnGet
  | Handler.targetMediaStateOnGet => d.mediaStateOnGet
  | Handler.targetMediaStateOnSet value => d.targetMediaStateOnSet value
  | Handler.powerModeSelectionOnSet powerModeSelection callError =>
    d.powerModeSelectionOnSet powerModeSelection callError
  | Handler.speakerActiveOnGet => d.getter (HapValue.bool d.power)
  | Handler.speakerActiveOnSet _ => { device := d }
  | Handler.volumeControlTypeOnGet => d.getter (HapValue.num 3)
  | Handler.volumeSelectorOnSet volumeSelector callError =>
    d.volumeSelectorOnSet volumeSelector callError
  | Handler.volumeOnGet => d.getter (HapValue.num d.volume)
  | Handler.volumeOnSet value => d.volumeOnSet value
  | Handler.muteOnGet => d.getter (HapValue.bool d.mute)
  | Handler.muteOnSet state => d.muteOnSet state
  | Handler.configuredNameOnGet inputName => d.getter (HapValue.str inputName)
  | Handler.configuredNameOnSet inputReference value callError =>
    d.configuredNameOnSet inputReference value callError
  | Handler.targetVisibilityOnGet currentVisibility => d.getter (HapValue.num currentVisibility)
  | Handler.targetVisibilityOnSet inputReference state callError =>
    d.targetVisibilityOnSet inputReference state callError
  | Handler.volumeServiceOnGet => d.getter (HapValue.num d.volume)
  | Handler.volumeServiceOnSet volume => d.volumeServiceOnSet volume
  | Handler.volumeServiceOnOnGet => d.getter (HapValue.bool !d.mute)
  | Handler.volumeServiceOnOnSet state => d.volumeServiceOnOnSet state
  | Handler.sensorPowerOnGet => d.getter (HapValue.bool d.power)
  | Handler.sensorInputOnGet =>
    d.getter (HapValue.bool (if d.power then d.sensorInputState else false))
  | Handler.sensorScreenSaverOnGet =>
    d.getter (HapValue.bool (if d.power then d.sensorScreenSaverState else false))
  | Handler.sensorsInputsOnGet i =>
    d.getter (match d.sensorsInputsConfigured[i]? with
      | some sensorInput => HapValue.bool sensorInput.state
      | none => HapValue.undefined)
  | Handler.buttonOnGet i =>
    d.getter (match d.buttonsConfigured[i]? with
      | some button => HapValue.bool button.state
      | none => HapValue.undefined)
  | Handler.buttonOnSet i state callError => d.buttonOnSet tables i state callError

/-- Running a sequence of handlers, one after the other. -/
def handleAll (tables : CommandTables) (d : XboxDevice) (hs : List Handler) : XboxDevice :=
  hs.foldl (fun d h => (handle tables d h).device) d

/-- Whether a handler is the listener of `stateChanged`. -/
def Handler.isStateChanged (h : Handler) : Bool :=
  match h with
  | Handler.stateChanged _ _ _ _ _ _ => true
  | _ => false

/-- Whether a handler is the listener of `powerOnError` of the web API client. -/
def Handler.isPowerOnError (h : Handler) : Bool :=
  match h with
  | Handler.webPowerOnError _ => true
  | _ => false

/-- A device configuration for concrete evaluations. -/
def sampleConfig : DeviceConfig :=
  { name := "Xbox", xboxLiveId := "FD0000000000", webApiControl := some true,
    webApiPowerOnOff := some true }

/-- A device configuration with one input sensor, for concrete evaluations. -/
def sampleSensorConfig : DeviceConfig :=
  { name := "Xbox"
    xboxLiveId := "FD0000000000"
    sensorInputs := some [SensorInput.mk (some "Game") (some "Game.One") (some 1) false false] }

/-- Command tables for concrete evaluations. -/
def sampleTables : CommandTables :=
  { media := fun c => c = "play" || c = "pause"
    input := fun c => c = "a" || c = "b" || c = "nexus"
    tvRemote := fun c => c = "volUp" || c = "volDown" }

/-- Two default inputs and three configured ones, for concrete evaluations. -/
def sampleDefaultInputs : List Input :=
  [{ name := some "Screensaver", reference := some "Xbox.IdleScreen" },
   { name := some "Dashboard", reference := some "Xbox.Dashboard" }]

/-- Configured inputs for concrete evaluations: a duplicate of a default input, an input without
a name, and a new input. -/
def sampleConfiguredInputs : List Input :=
  [{ name := some "My dashboard", reference := some "Xbox.Dashboard" },
   { name := some "", reference := some "Game.One" },
   { name := some "Game", reference := some "Game.One" }]

/-! ## `xboxdevice.js`: notions used to state the claims about the services and commands -/

/-- Whether a service is an input source service. -/
def Service.isInputSource (s : Service) : Bool :=
  match s with
  | Service.InputSource _ => true
  | _ => false

/-- The number of input source services among `allServices`. -/
def XboxDevice.inputSourceCount (d : XboxDevice) : Nat :=
  d.allServices.countP Service.isInputSource

/-- Whether an effect is a power command: a command of the web API channel `Power`, or a
`powerOn()` or `powerOff()` of the local API. -/
def Effect.isPowerCommand (e : Effect) : Bool :=
  match e with
  | Effect.webApiSend channelName _ _ => channelName == some "Power"
  | Effect.powerOn => true
  | Effect.powerOff => true
  | _ => false

/-- Whether an effect is a command sent to the console through the web API or the local
API. -/
def Effect.isCommand (e : Effect) : Bool :=
  match e with
  | Effect.webApiSend _ _ _ => true
  | Effect.powerOn => true
  | Effect.powerOff => true
  | Effect.recordGameDvr => true
  | _ => false

/-- The name of a HomeKit media state (`//apple, 0 - PLAY, 1 - PAUSE, 2 - STOP, 3 - LOADING,
4 - INTERRUPTED`), as the handlers of both files print it. -/
def homeKitMediaStateName (value : Nat) : Option String :=
  ["PLAY", "PAUSE", "STOP", "LOADING", "INTERRUPTED"][value]?

/-- The name of an Xbox media state, as the comment of the `CurrentMediaState` getter documents
it (`//xbox, 0 - STOP, 1 - PLAY, 2 - PAUSE`; 3 and 4 are passed on unchanged). -/
def xboxMediaStateName (mediaState : Nat) : Option String :=
  ["STOP", "PLAY", "PAUSE", "LOADING", "INTERRUPTED"][mediaState]?

/-- Whether the input filter described in words keeps an input: with the filter enabled, the
content type of the input is none of the categories whose flag is set. -/
def keptByFlags (enabled : Bool) (filterGames : Bool) (filterApps : Bool)
    (filterSystemApps : Bool) (filterDlc : Bool) (input : Input) : Bool :=
  !enabled
    || !((filterGames && input.contentType == some "Game")
      || (filterApps && input.contentType == some "App")
      || (filterSystemApps && input.contentType == some "systemApp")
      || (filterDlc && input.contentType == some "Dlc"))

/-! ## `index.js` -/

/-- What the code of `index.js` does to its collaborators: the lines it logs and the calls of
the `smartglass` provider of the web API. -/
inductive IndexEffect where
  | log (text : String)
  | logError (text : String)
  | mute
  | unmute
  deriving DecidableEq, Repr

/-- The `config` object of a device of `index.js`, as far as the embedded code reads it. -/
structure IndexConfig where
  name : String
  host : String
  disableLogInfo : Option Bool := none
  getInputsFromDevice : Option Bool := none
  filterGames : Option Bool := none
  filterApps : Option Bool := none
  filterSystemApps : Option Bool := none
  filterDlc : Option Bool := none
  inputs : Option (List Input) := none
  buttons : Option (List Button) := none
  sensorInputs : Option (List SensorInput) := none
  deriving DecidableEq, Repr

/-- The fields of an `XBOXDEVICE` instance of `index.js` that the embedded code reads. -/
structure XBOXDEVICE where
  name : String
  host : String
  disableLogInfo : Bool
  getInputsFromDevice : Bool
  filterGames : Bool
  filterApps : Bool
  filterSystemApps : Bool
  filterDlc : Bool
  inputs : List Input
  buttons : List Button
  sensorInputs : List SensorInput
  webApiEnabled : Bool := false
  firstRun : Bool := true
  inputsArr : List Input := []
  power : Bool := false
  volume : Nat := 0
  mute : Bool := true
  mediaState : Nat := 0
  deriving DecidableEq, Repr

/-- The result of a characteristic handler of `index.js`. -/
structure IndexResult where
  value : Option HapValue := none
  effects : List IndexEffect := []
  deriving DecidableEq, Repr

namespace XBOXDEVICE

/-- The constructor of `XBOXDEVICE`, the fields above; `DefaultInputs` is
`CONSTANS.DefaultInputs`. -/
def new (DefaultInputs : List Input) (config : IndexConfig) : XBOXDEVICE :=
  { name := config.name
    host := config.host
    disableLogInfo := config.disableLogInfo.getD false
    getInputsFromDevice := config.getInputsFromDevice.getD false
    filterGames := config.filterGames.getD false
    filterApps := config.filterApps.getD false
    filterSystemApps := config.filterSystemApps.getD false
    filterDlc := config.filterDlc.getD false
    inputs := DefaultInputs ++ config.inputs.getD []
    buttons := config.buttons.getD []
    sensorInputs := config.sensorInputs.getD [] }

/-- The expression `this.disableLogInfo || this.firstRun ? false : this.log(text)`; the text
starts with the host and the name of the device. -/
def logInfo (d : XBOXDEVICE) (text : String) : List IndexEffect :=
  if d.disableLogInfo || d.firstRun then []
  else [IndexEffect.log ("Device: " ++ d.host ++ " " ++ d.name ++ ", " ++ text)]

/-- The value `[2, 0, 1, 3, 4][this.mediaState]` of the two media state getters. -/
def mediaStateValue (d : XBOXDEVICE) : Option Nat := [2, 0, 1, 3, 4][d.mediaState]?

/-- The label the two media state getters log: the name of the value they return. -/
def mediaStateLabel (d : XBOXDEVICE) : String :=
  jsStr (match d.mediaStateValue with
    | some value => ["PLAY", "PAUSE", "STOP", "LOADING", "INTERRUPTED"][value]?
    | none => none)

/-- The value a getter returns for an optional number. -/
def hapNum (value : Option Nat) : HapValue :=
  match value with
  | some v => HapValue.num v
  | none => HapValue.undefined

/-- Television `CurrentMediaState`, `onGet`. -/
def currentMediaStateOnGet (d : XBOXDEVICE) : IndexResult :=
  { value := some (hapNum d.mediaStateValue)
    effects := d.logInfo ("get Current Media state successful: " ++ d.mediaStateLabel) }

/-- Television `TargetMediaState`, `onGet`. -/
def targetMediaStateOnGet (d : XBOXDEVICE) : IndexResult :=
  { value := some (hapNum d.mediaStateValue)
    effects := d.logInfo ("get Target Media state successful: " ++ d.mediaStateLabel) }

/-- Speaker `Mute`, `onSet`; `callError` is the rejection of the web API call. -/
def muteOnSet (d : XBOXDEVICE) (state : Bool) (callError : Option String) : IndexResult :=
  let call := d.power && d.webApiEnabled
  { effects := (if call then (if state then [IndexEffect.mute] else [IndexEffect.unmute]) else [])
      ++ (match (if call then callError else none) with
        | some e =>
          [IndexEffect.logError ("Device: " ++ d.host ++ " " ++ d.name ++ ", set Mute error: " ++ e)]
        | none => d.logInfo ("set Mute successful: " ++ (if state then "ON" else "OFF"))) }

/-- The list the filter loop of `prepareAccessory` runs over
(`//check available inputs and filter costom inputs`). -/
def allInputs (d : XBOXDEVICE) (savedInputs : List Input) : List Input :=
  if d.getInputsFromDevice && decide (savedInputs.length > 0) then savedInputs else d.inputs

/-- The body of the filter loop of `prepareAccessory`. -/
def pushFiltered (d : XBOXDEVICE) (inputsArr : List Input) (input : Input) : List Input :=
  let contentType := input.contentType
  let filterGames := if d.filterGames then contentType != some "Game" else true
  let filterApps := if d.filterApps then contentType != some "App" else true
  let filterSystemApps := if d.filterSystemApps then contentType != some "systemApp" else true
  let filterDlc := if d.filterDlc then contentType != some "Dlc" else true
  if d.getInputsFromDevice then
    (if filterGames && filterApps && filterSystemApps && filterDlc then inputsArr ++ [input]
    else inputsArr)
  else inputsArr ++ [input]

/-- The filter loop of `prepareAccessory`: the inputs are pushed to `this.inputsArr`. -/
def filterInputs (d : XBOXDEVICE) (allInputs : List Input) : List Input :=
  allInputs.foldl (pushFiltered d) d.inputsArr

/-- The count `maxInputsCount` of `prepareAccessory`
(`//check available inputs and possible inputs count (max 93)`). -/
def maxInputsCount (inputsCount : Nat) : Int :=
  if (inputsCount : Int) < 93 then inputsCount else 93

/-- The count `maxInputsSensorsCount` of `prepareAccessory`. -/
def maxInputsSensorsCount (maxInputsCount : Int) (inputsSensorsCount : Nat) : Int :=
  let availableInputsSensorsCount : Int := 94 - maxInputsCount
  if availableInputsSensorsCount > 0 then
    (if availableInputsSensorsCount > inputsSensorsCount then inputsSensorsCount
    else availableInputsSensorsCount)
  else 0

/-- The count `maxButtonsCount` of `prepareAccessory`
(`//check available buttons and possible buttons count (max 94)`). -/
def maxButtonsCount (maxInputsCount : Int) (maxInputsSensorsCount : Int) (buttonsCount : Nat) :
    Int :=
  let availableButtonsCount : Int := 94 - (maxInputsCount + maxInputsSensorsCount)
  if availableButtonsCount > 0 then
    (if availableButtonsCount ≥ buttonsCount then buttonsCount else availableButtonsCount)
  else 0

/-- Whether the loop of `prepareAccessory` over the first `maxInputsSensorsCount` input sensors
runs to its end: a sensor without display type (`inputSensor.displayType || -1`) makes
`prepareAccessory` return, and a display type other than 1 and 2 has no service class, so
`new serviceType(...)` throws. -/
def sensorsLoopCompletes (d : XBOXDEVICE) (maxInputsSensorsCount : Int) : Bool :=
  (d.sensorInputs.take maxInputsSensorsCount.toNat).all
    (fun inputSensor => inputSensor.displayType == some 1 || inputSensor.displayType == some 2)

/-- The three counts of `prepareAccessory` for a device whose inputs were filtered into
`this.inputsArr`: inputs, input sensors, and buttons; the count of the buttons is computed
after the loop over the input sensors, when that loop runs to its end. -/
def serviceCounts (d : XBOXDEVICE) : Int × Int × Option Int :=
  let maxInputs := maxInputsCount d.inputsArr.length
  let maxSensors := maxInputsSensorsCount maxInputs d.sensorInputs.length
  (maxInputs, maxSensors,
    if d.sensorsLoopCompletes maxSensors then
      some (maxButtonsCount maxInputs maxSensors d.buttons.length)
    else none)

end XBOXDEVICE

/-- An entry of `config.devices` of the platform. -/
structure PlatformDevice where
  name : Option String
  host : Option String
  xboxLiveId : Option String
  deriving DecidableEq, Repr

/-- The property `config.devices`: an array, or anything else (also a missing property). -/
inductive DevicesValue where
  | array (devices : List PlatformDevice)
  | other
  deriving DecidableEq, Repr

/-- The `config` argument of the platform. -/
structure PlatformConfig where
  devices : DevicesValue
  deriving DecidableEq, Repr

/-- A platform after its constructor ran: the listeners registered on the event
`didFinishLaunching` of the `api` (each closes over its `devices`), the devices created so
far and the lines logged. -/
structure XBOXPLATFORM where
  listeners : List (List PlatformDevice) := []
  created : List PlatformDevice := []
  logged : List String := []
  deriving DecidableEq, Repr

namespace XBOXPLATFORM

/-- The constructor `new XBOXPLATFORM(log, config, api)`; `none` is a missing (falsy)
`config`. -/
def new (config : Option PlatformConfig) : XBOXPLATFORM :=
  match config with
  | none => { logged := ["No configuration found for homebridge-xbox-tv"] }
  | some c =>
    match c.devices with
    | DevicesValue.other => { logged := ["No configuration found for homebridge-xbox-tv"] }
    | DevicesValue.array devices => { listeners := [devices] }

/-- The loop of the `didFinishLaunching` listener: a device is created for each entry until an
entry misses its name, host or Xbox Live id, where the listener warns and returns. Returns the
devices created and the lines logged. -/
def launch : List PlatformDevice → List PlatformDevice × List String
  | [] => ([], [])
  | device :: rest =>
    if !truthy device.name || !truthy device.host || !truthy device.xboxLiveId then
      ([], ["Device Name, Host or Xbox Live ID Missing"])
    else
      let r := launch rest
      (device :: r.1, r.2)

/-- The event `didFinishLaunching` of the `api`: every registered listener runs. -/
def didFinishLaunching (p : XBOXPLATFORM) : XBOXPLATFORM :=
  p.listeners.foldl (fun p devices =>
    let r := launch devices
    { p with created := p.created ++ r.1, logged := p.logged ++ ("didFinishLaunching" :: r.2) }) p

/-- Whether the platform is configured: `config` is present and `config.devices` is an
array. -/
def configured (config : Option PlatformConfig) : Bool :=
  match config with
  | none => false
  | some c =>
    match c.devices with
    | DevicesValue.other => false
    | DevicesValue.array _ => true

end XBOXPLATFORM

/-- A freshly constructed device after the `prepareAccessory` listener read the saved inputs,
input names and input visibilities. -/
def XboxDevice.fresh (DefaultInputs : List Input) (device : DeviceConfig)
    (savedInputs : List Input) (savedInputsNames : List (String × String))
    (savedInputsTargetVisibility : List (String × Nat)) : XboxDevice :=
  { XboxDevice.new DefaultInputs device with
    savedInputs := savedInputs
    savedInputsNames := savedInputsNames
    savedInputsTargetVisibility := savedInputsTargetVisibility }

/-- A device configuration with the web API enabled and `webApiPowerOnOff` not set, for
concrete evaluations. -/
def sampleUnsetConfig : DeviceConfig :=
  { name := "Xbox", xboxLiveId := "FD0000000000", webApiControl := some true }

/-- A platform configuration with one complete device, for concrete evaluations. -/
def samplePlatformConfig : PlatformConfig :=
  { devices := DevicesValue.array
      [PlatformDevice.mk (some "Xbox") (some "192.168.1.10") (some "FD0000000000")] }

/-- A saved input for concrete evaluations. -/
def sampleInput : Input := { name := some "Game", reference := some "Game.One" }

/-- A device configuration of `index.js` for concrete evaluations: the filter is enabled for
games. -/
def sampleIndexConfig : IndexConfig :=
  { name := "Xbox", host := "192.168.1.10", getInputsFromDevice := some true,
    filterGames := some true }

/-! ## Facts about the literals and the slices -/

theorem lit_simple : lit "simple" = [115, 105, 109, 112, 108, 101] := by rfl

theorem lit_simple_dot : lit "simple." = [115, 105, 109, 112, 108, 101, 46] := by rfl

theorem lit_message : lit "message" = [109, 101, 115, 115, 97, 103, 101] := by rfl

/-- A name `'simple.' + n` selects the class `SimplePacket` with name `n`. -/
theorem loadPacketStructure_simple {S K V X R E : Type} (impl : PacketImpl S K V X R E)
    (n : JsString) (value : Option JsArg) :
    PACKER.loadPacketStructure impl (JsArg.str (lit "simple." ++ n)) value
      = some (PacketObject.fresh impl PacketClass.SimplePacket (JsArg.str n) value) := by
  simp [PACKER.loadPacketStructure, JsArg.slice, JsArg.sliceFrom, JsArg.looseEq, lit_simple,
    lit_simple_dot]

/-- A name that starts with `'message'` selects the class `MessagePacket`. -/
theorem loadPacketStructure_message {S K V X R E : Type} (impl : PacketImpl S K V X R E)
    (v : JsString) (value : Option JsArg) (h : lit "message" <+: v) :
    PACKER.loadPacketStructure impl (JsArg.str v) value
      = some (PacketObject.fresh impl PacketClass.MessagePacket (JsArg.str (v.drop 8)) value) := by
  obtain ⟨t, rfl⟩ := h
  simp [PACKER.loadPacketStructure, JsArg.slice, JsArg.sliceFrom, JsArg.looseEq, lit_simple,
    lit_message]

/-- The method `unpack` on a `PACKER` that holds a packet object is the `unpack` of that
object. -/
theorem unpack_of_structure {S K V X R E : Type} (impl : PacketImpl S K V X R E)
    (p : PACKER S) (o : PacketObject S) (x : Option X) (h : p.packetStructure = some o) :
    (PACKER.unpack impl p x).1 = (impl.unpack o.cls o.state x).1 := by
  simp [PACKER.unpack, h]

/-! ## The claims about `PACKER` -/

/-- C1: for a buffer `b` whose first two bytes in lowercase hex are a key `k` of the type
table with `Types[k] = v`, `new PACKER(b)` holds the structure named by `v` and built from `b`
itself: `new SimplePacket(n, b)` when `v = 'simple.' + n`, `new MessagePacket(v.slice(8), b)`
when `v` starts with `'message'`; and `unpack()` returns the `unpack` result of exactly
that structure. -/
theorem packer_known_type_builds_named_structure {S K V X R E : Type}
    (impl : PacketImpl S K V X R E) (Types : TypeTable) (b : Bytes) (k v : JsString)
    (x : Option X) (hk : toHex (b.take 2) = k) (hv : Types k = some v) :
    (∀ n, v = lit "simple." ++ n →
      (PACKER.new impl Types (JsArg.buf b)).packetStructure
          = some (PacketObject.fresh impl PacketClass.SimplePacket (JsArg.str n)
              (some (JsArg.buf b)))
        ∧ (PACKER.unpack impl (PACKER.new impl Types (JsArg.buf b)) x).1
          = (impl.unpack PacketClass.SimplePacket
              (impl.create PacketClass.SimplePacket (JsArg.str n) (some (JsArg.buf b))) x).1)
    ∧ (lit "message" <+: v →
      (PACKER.new impl Types (JsArg.buf b)).packetStructure
          = some (PacketObject.fresh impl PacketClass.MessagePacket (JsArg.str (v.drop 8))
              (some (JsArg.buf b)))
        ∧ (PACKER.unpack impl (PACKER.new impl Types (JsArg.buf b)) x).1
          = (impl.unpack PacketClass.MessagePacket
              (impl.create PacketClass.MessagePacket (JsArg.str (v.drop 8))
                (some (JsArg.buf b))) x).1) := by
  have hnew : (PACKER.new impl Types (JsArg.buf b)).packetStructure
      = PACKER.loadPacketStructure impl (JsArg.str v) (some (JsArg.buf b)) := by
    have hk2 : PACKER.packetType (JsArg.buf b) = k := by
      simpa [PACKER.packetType, JsArg.slice, JsArg.toStringHex] using hk
    simp [PACKER.new, hk2, hv]
  constructor
  · intro n hn
    have hs := hnew
    rw [hn, loadPacketStructure_simple] at hs
    exact ⟨hs, by rw [unpack_of_structure impl _ _ x hs]; rfl⟩
  · intro hm
    have hs := hnew
    rw [loadPacketStructure_message impl v _ hm] at hs
    exact ⟨hs, by rw [unpack_of_structure impl _ _ x hs]; rfl⟩

/-- Witness of C1: the datagram `dd 00 01 02` under the sample table, whose code `dd00` names
`simple.discoveryRequest`. -/
theorem packer_known_type_builds_named_structure_witness :
    (PACKER.new sampleImpl sampleTypes (JsArg.buf [0xdd, 0x00, 0x01, 0x02])).packetStructure
        = some (PacketObject.fresh sampleImpl PacketClass.SimplePacket
            (JsArg.str (lit "discoveryRequest")) (some (JsArg.buf [0xdd, 0x00, 0x01, 0x02])))
      ∧ (PACKER.unpack sampleImpl
            (PACKER.new sampleImpl sampleTypes (JsArg.buf [0xdd, 0x00, 0x01, 0x02])) none).1
        = (sampleImpl.unpack PacketClass.SimplePacket
            (sampleImpl.create PacketClass.SimplePacket (JsArg.str (lit "discoveryRequest"))
              (some (JsArg.buf [0xdd, 0x00, 0x01, 0x02]))) none).1 :=
  (packer_known_type_builds_named_structure sampleImpl sampleTypes [0xdd, 0x00, 0x01, 0x02]
    (lit "dd00") (lit "simple.discoveryRequest") none (by decide) (by decide)).1
    (lit "discoveryRequest") (by decide)

/-- For a buffer whose code is not in the table the constructor reads the buffer itself as a
type name. -/
theorem new_of_unknown_code {S K V X R E : Type} (impl : PacketImpl S K V X R E)
    (Types : TypeTable) (type : JsArg) (hk : Types (PACKER.packetType type) = none) :
    (PACKER.new impl Types type).packetStructure
      = PACKER.loadPacketStructure impl type none := by
  simp [PACKER.new, hk]

/-- For a buffer whose code is in the table the constructor reads the name from the table. -/
theorem new_of_known_code {S K V X R E : Type} (impl : PacketImpl S K V X R E)
    (Types : TypeTable) (type : JsArg) (v : JsString)
    (hk : Types (PACKER.packetType type) = some v) :
    (PACKER.new impl Types type).packetStructure
      = PACKER.loadPacketStructure impl (JsArg.str v) (some type) := by
  simp [PACKER.new, hk]

/-- A buffer that spells neither `simple` nor `message` names no structure. -/
theorem loadPacketStructure_buf_none {S K V X R E : Type} (impl : PacketImpl S K V X R E)
    (b : Bytes) (value : Option JsArg)
    (hs : (b.take 6).map Fin.val ≠ lit "simple")
    (hm : (b.take 7).map Fin.val ≠ lit "message") :
    PACKER.loadPacketStructure impl (JsArg.buf b) value = none := by
  simp only [List.map_take] at hs hm
  simp [PACKER.loadPacketStructure, JsArg.slice, JsArg.looseEq, hs, hm]

/-- Every structure that `loadPacketStructure` returns carries the value it was given. -/
theorem loadPacketStructure_value {S K V X R E : Type} (impl : PacketImpl S K V X R E)
    (type : JsArg) (value : Option JsArg) (o : PacketObject S)
    (h : PACKER.loadPacketStructure impl type value = some o) : o.value = value := by
  unfold PACKER.loadPacketStructure at h
  split_ifs at h <;> simp [PacketObject.fresh] at h <;> subst h <;> rfl

/-- The method `unpack` on a `PACKER` that holds `false` throws the `TypeError`. -/
theorem unpack_of_false {S K V X R E : Type} (impl : PacketImpl S K V X R E)
    (p : PACKER S) (x : Option X) (h : p.packetStructure = none) :
    PACKER.unpack impl p x = (Outcome.threw Thrown.typeError, p) := by
  simp [PACKER.unpack, h]

/-- C2 (counterexample): under the sample table the datagram `ab cd` has an unknown type code;
decoding it returns no result at all, in particular no `UnknownPacketType` result: `unpack()`
throws the `TypeError` of calling a method of `false`. -/
theorem packer_unknown_type_throws :
    sampleTypes (toHex [0xab, 0xcd]) = none
      ∧ (PACKER.unpack sampleImpl (PACKER.new sampleImpl sampleTypes (JsArg.buf [0xab, 0xcd]))
          none).1 = Outcome.threw Thrown.typeError
      ∧ ¬ ∃ r, (PACKER.unpack sampleImpl
          (PACKER.new sampleImpl sampleTypes (JsArg.buf [0xab, 0xcd])) none).1
            = Outcome.returned r := by
  refine ⟨by decide, by decide, ?_⟩
  rintro ⟨r, hr⟩
  have h : (PACKER.unpack sampleImpl
      (PACKER.new sampleImpl sampleTypes (JsArg.buf [0xab, 0xcd])) none).1
        = Outcome.threw Thrown.typeError := by decide
  rw [h] at hr
  cases hr

/-- C2 (amended): for a buffer whose first two bytes are not a key of the type table and whose
leading bytes do not spell `simple` or `message`, `new PACKER(b)` holds `false` instead of a
packet structure, and `unpack()` on it throws the `TypeError` and leaves the `PACKER` as it
was. -/
theorem packer_unknown_type_holds_false {S K V X R E : Type} (impl : PacketImpl S K V X R E)
    (Types : TypeTable) (b : Bytes) (x : Option X)
    (hk : Types (PACKER.packetType (JsArg.buf b)) = none)
    (hs : (b.take 6).map Fin.val ≠ lit "simple")
    (hm : (b.take 7).map Fin.val ≠ lit "message") :
    (PACKER.new impl Types (JsArg.buf b)).packetStructure = none
      ∧ PACKER.unpack impl (PACKER.new impl Types (JsArg.buf b)) x
        = (Outcome.threw Thrown.typeError, PACKER.new impl Types (JsArg.buf b)) := by
  have h : (PACKER.new impl Types (JsArg.buf b)).packetStructure = none := by
    rw [new_of_unknown_code impl Types _ hk]
    exact loadPacketStructure_buf_none impl b none hs hm
  exact ⟨h, unpack_of_false impl _ x h⟩

/-- Witness of C2 (amended): the datagram `00 00 00 01` under the sample table. -/
theorem packer_unknown_type_holds_false_witness :
    (PACKER.new sampleImpl sampleTypes (JsArg.buf [0, 0, 0, 1])).packetStructure = none
      ∧ PACKER.unpack sampleImpl (PACKER.new sampleImpl sampleTypes (JsArg.buf [0, 0, 0, 1]))
          (none : Option Unit)
        = (Outcome.threw Thrown.typeError,
            PACKER.new sampleImpl sampleTypes (JsArg.buf [0, 0, 0, 1])) :=
  packer_unknown_type_holds_false sampleImpl sampleTypes [0, 0, 0, 1] none
    (by decide) (by decide) (by decide)

/-- C3 (counterexample): under the sample table the datagram `00 00` has a code that is not in
the table, and the structure `PACKER` holds for it is `false`, not a `MessagePacket`. -/
theorem packer_unknown_code_is_not_message :
    sampleTypes (PACKER.packetType (JsArg.buf [0, 0])) = none
      ∧ (PACKER.new sampleImpl sampleTypes (JsArg.buf [0, 0])).packetStructure = none
      ∧ (PACKER.new sampleImpl sampleTypes (JsArg.buf [0, 0])).structureClass
          ≠ some PacketClass.MessagePacket := by
  decide

/-- C3 (amended): for a buffer whose first two bytes are not a key of the type table,
the structure is chosen by reading the buffer itself as a type name; it is never built from
the buffer, and it is `false` unless the bytes of the buffer spell `simple` or `message`. A
`MessagePacket` built from the buffer is held exactly when the table maps the first two bytes
to a name that starts with `message`. -/
theorem packer_message_only_through_table {S K V X R E : Type}
    (impl : PacketImpl S K V X R E) (Types : TypeTable) (b : Bytes) :
    (Types (PACKER.packetType (JsArg.buf b)) = none →
      (PACKER.new impl Types (JsArg.buf b)).packetStructure
          = PACKER.loadPacketStructure impl (JsArg.buf b) none
        ∧ (PACKER.new impl Types (JsArg.buf b)).structureValue ≠ some (some (JsArg.buf b))
        ∧ ((b.take 6).map Fin.val ≠ lit "simple" → (b.take 7).map Fin.val ≠ lit "message" →
            (PACKER.new impl Types (JsArg.buf b)).packetStructure = none))
    ∧ ((∃ o, (PACKER.new impl Types (JsArg.buf b)).packetStructure = some o
            ∧ o.cls = PacketClass.MessagePacket ∧ o.value = some (JsArg.buf b))
        ↔ ∃ v, Types (PACKER.packetType (JsArg.buf b)) = some v
            ∧ v.take 7 = lit "message") := by
  constructor
  · intro hk
    have hn := new_of_unknown_code impl Types (JsArg.buf b) hk
    refine ⟨hn, ?_, ?_⟩
    · intro hv
      simp only [PACKER.structureValue] at hv
      rcases ho : (PACKER.new impl Types (JsArg.buf b)).packetStructure with _ | o
      · simp [ho] at hv
      · rw [ho] at hv
        rw [hn] at ho
        have := loadPacketStructure_value impl _ _ o ho
        simp [this] at hv
    · intro hs hm
      rw [hn]
      exact loadPacketStructure_buf_none impl b none hs hm
  · constructor
    · rintro ⟨o, ho, hc, hval⟩
      rcases hk : Types (PACKER.packetType (JsArg.buf b)) with _ | v
      · rw [new_of_unknown_code impl Types _ hk] at ho
        have := loadPacketStructure_value impl _ _ o ho
        rw [this] at hval
        exact absurd hval (by simp)
      · refine ⟨v, rfl, ?_⟩
        rw [new_of_known_code impl Types _ v hk] at ho
        unfold PACKER.loadPacketStructure at ho
        split_ifs at ho with h1 h2
        · simp [PacketObject.fresh] at ho
          subst ho
          simp at hc
        · simpa [JsArg.slice, JsArg.looseEq] using h2
    · rintro ⟨v, hk, hv⟩
      have hpre : lit "message" <+: v := by
        rw [← hv]
        exact List.take_prefix 7 v
      refine ⟨_, (new_of_known_code impl Types _ v hk).trans
        (loadPacketStructure_message impl v _ hpre), rfl, rfl⟩

/-- Witness of C3 (amended): the datagram `00 00` under the sample table. -/
theorem packer_message_only_through_table_witness :
    (PACKER.new sampleImpl sampleTypes (JsArg.buf [0, 0])).packetStructure
        = PACKER.loadPacketStructure sampleImpl (JsArg.buf [0, 0]) none
      ∧ (PACKER.new sampleImpl sampleTypes (JsArg.buf [0, 0])).structureValue
        ≠ some (some (JsArg.buf [0, 0]))
      ∧ (PACKER.new sampleImpl sampleTypes (JsArg.buf [0, 0])).packetStructure = none :=
  have h := (packer_message_only_through_table sampleImpl sampleTypes [0, 0]).1 (by decide)
  ⟨h.1, h.2.1, h.2.2 (by decide) (by decide)⟩

/-- C4 (counterexample): decoding the empty buffer under the sample table does not fail with a
`Truncated` error: `new PACKER` completes, and `unpack()` throws the `TypeError` of the
runtime, which is neither a returned result nor an error raised by packet code. -/
theorem packer_empty_buffer_type_error :
    ([] : Bytes).length < 2
      ∧ (PACKER.unpack sampleImpl (PACKER.new sampleImpl sampleTypes (JsArg.buf [])) none).1
          = Outcome.threw Thrown.typeError
      ∧ (∀ e, (PACKER.unpack sampleImpl (PACKER.new sampleImpl sampleTypes (JsArg.buf []))
          none).1 ≠ Outcome.threw (Thrown.byPacket e))
      ∧ (∀ r, (PACKER.unpack sampleImpl (PACKER.new sampleImpl sampleTypes (JsArg.buf []))
          none).1 ≠ Outcome.returned r) := by
  have h : (PACKER.unpack sampleImpl (PACKER.new sampleImpl sampleTypes (JsArg.buf []))
      none).1 = Outcome.threw Thrown.typeError := by decide
  refine ⟨by decide, h, ?_, ?_⟩
  · intro e he
    rw [h] at he
    cases he
  · intro r hr
    rw [h] at hr
    cases hr

/-- C4 (amended): for a buffer with fewer than two bytes whose hex rendering is not a key of
the type table, `new PACKER(b)` holds `false` instead of a packet structure and `unpack()`
throws the `TypeError` of the runtime. -/
theorem packer_short_buffer_holds_false {S K V X R E : Type} (impl : PacketImpl S K V X R E)
    (Types : TypeTable) (b : Bytes) (x : Option X) (hlen : b.length < 2)
    (hk : Types (PACKER.packetType (JsArg.buf b)) = none) :
    (PACKER.new impl Types (JsArg.buf b)).packetStructure = none
      ∧ PACKER.unpack impl (PACKER.new impl Types (JsArg.buf b)) x
        = (Outcome.threw Thrown.typeError, PACKER.new impl Types (JsArg.buf b)) := by
  have hs : (b.take 6).map Fin.val ≠ lit "simple" := by
    intro h
    have := congrArg List.length h
    simp [lit_simple] at this
    omega
  have hm : (b.take 7).map Fin.val ≠ lit "message" := by
    intro h
    have := congrArg List.length h
    simp [lit_message] at this
    omega
  have h : (PACKER.new impl Types (JsArg.buf b)).packetStructure = none := by
    rw [new_of_unknown_code impl Types _ hk]
    exact loadPacketStructure_buf_none impl b none hs hm
  exact ⟨h, unpack_of_false impl _ x h⟩

/-- Witness of C4 (amended): the one-byte buffer `dd` under the sample table. -/
theorem packer_short_buffer_holds_false_witness :
    (PACKER.new sampleImpl sampleTypes (JsArg.buf [0xdd])).packetStructure = none
      ∧ PACKER.unpack sampleImpl (PACKER.new sampleImpl sampleTypes (JsArg.buf [0xdd]))
          (none : Option Unit)
        = (Outcome.threw Thrown.typeError,
            PACKER.new sampleImpl sampleTypes (JsArg.buf [0xdd])) :=
  packer_short_buffer_holds_false sampleImpl sampleTypes [0xdd] none (by decide) (by decide)

/-- C5 (counterexample): the buffers `73 69 6d 70 6c 65 2e 78` (the bytes of `simple.x`) and
`73 69` agree on their first two bytes, whose code `7369` is not in the sample table; for the
first `PACKER` selects the class `SimplePacket`, for the second it selects no structure. -/
theorem packer_selection_reads_past_two_bytes :
    ([0x73, 0x69, 0x6d, 0x70, 0x6c, 0x65, 0x2e, 0x78] : Bytes).take 2
        = ([0x73, 0x69] : Bytes).take 2
      ∧ (PACKER.new sampleImpl sampleTypes
          (JsArg.buf [0x73, 0x69, 0x6d, 0x70, 0x6c, 0x65, 0x2e, 0x78])).structureClass
          = some PacketClass.SimplePacket
      ∧ (PACKER.new sampleImpl sampleTypes (JsArg.buf [0x73, 0x69])).structureClass = none := by
  decide

/-- A buffer whose first two bytes are not `73 69` does not spell `simple`. -/
theorem not_simple_of_first_two (b : Bytes) (h : (b.take 2).map Fin.val ≠ [0x73, 0x69]) :
    (b.take 6).map Fin.val ≠ lit "simple" := by
  intro h6
  apply h
  have h2 := congrArg (List.take 2) h6
  rw [← List.map_take, List.take_take, lit_simple] at h2
  simpa using h2

/-- A buffer whose first two bytes are not `6d 65` does not spell `message`. -/
theorem not_message_of_first_two (b : Bytes) (h : (b.take 2).map Fin.val ≠ [0x6d, 0x65]) :
    (b.take 7).map Fin.val ≠ lit "message" := by
  intro h7
  apply h
  have h2 := congrArg (List.take 2) h7
  rw [← List.map_take, List.take_take, lit_message] at h2
  simpa using h2

/-- C5 (amended): for two buffers that agree on their first two bytes, `new PACKER` selects
the same structure class (simple, message or none) and the same type name, unless the
two-byte code is outside the type table and the two bytes are `73 69` (`si`) or `6d 65`
(`me`), the first letters of `simple` and `message`. -/
theorem packer_selection_by_first_two_bytes {S K V X R E : Type}
    (impl : PacketImpl S K V X R E) (Types : TypeTable) (b₁ b₂ : Bytes)
    (h : b₁.take 2 = b₂.take 2)
    (hx : (Types (toHex (b₁.take 2))).isSome
      ∨ ((b₁.take 2).map Fin.val ≠ [0x73, 0x69] ∧ (b₁.take 2).map Fin.val ≠ [0x6d, 0x65])) :
    (PACKER.new impl Types (JsArg.buf b₁)).structureClass
        = (PACKER.new impl Types (JsArg.buf b₂)).structureClass
      ∧ (PACKER.new impl Types (JsArg.buf b₁)).structureName
        = (PACKER.new impl Types (JsArg.buf b₂)).structureName := by
  rcases hk : Types (toHex (b₁.take 2)) with _ | v
  · have hne : (b₁.take 2).map Fin.val ≠ [0x73, 0x69]
        ∧ (b₁.take 2).map Fin.val ≠ [0x6d, 0x65] := by
      rcases hx with hx | hx
      · rw [hk] at hx
        cases hx
      · exact hx
    have h₁ : Types (PACKER.packetType (JsArg.buf b₁)) = none := by
      simpa [PACKER.packetType, JsArg.slice, JsArg.toStringHex] using hk
    have h₂ : Types (PACKER.packetType (JsArg.buf b₂)) = none := by
      rw [h] at hk
      simpa [PACKER.packetType, JsArg.slice, JsArg.toStringHex] using hk
    have n₁ : (PACKER.new impl Types (JsArg.buf b₁)).packetStructure = none := by
      rw [new_of_unknown_code impl Types _ h₁]
      exact loadPacketStructure_buf_none impl b₁ none (not_simple_of_first_two b₁ hne.1)
        (not_message_of_first_two b₁ hne.2)
    have n₂ : (PACKER.new impl Types (JsArg.buf b₂)).packetStructure = none := by
      rw [new_of_unknown_code impl Types _ h₂]
      rw [h] at hne
      exact loadPacketStructure_buf_none impl b₂ none (not_simple_of_first_two b₂ hne.1)
        (not_message_of_first_two b₂ hne.2)
    simp [PACKER.structureClass, PACKER.structureName, n₁, n₂]
  · have h₁ : Types (PACKER.packetType (JsArg.buf b₁)) = some v := by
      simpa [PACKER.packetType, JsArg.slice, JsArg.toStringHex] using hk
    have h₂ : Types (PACKER.packetType (JsArg.buf b₂)) = some v := by
      rw [h] at hk
      simpa [PACKER.packetType, JsArg.slice, JsArg.toStringHex] using hk
    simp only [PACKER.structureClass, PACKER.structureName,
      new_of_known_code impl Types _ v h₁, new_of_known_code impl Types _ v h₂]
    unfold PACKER.loadPacketStructure
    split_ifs <;> simp [PacketObject.fresh]

/-- Witness of C5 (amended): two datagrams with the code `d00d` of the sample table, and two
datagrams with the code `0000`, which is not in the table. -/
theorem packer_selection_by_first_two_bytes_witness :
    ((PACKER.new sampleImpl sampleTypes (JsArg.buf [0xd0, 0x0d, 1])).structureClass
        = (PACKER.new sampleImpl sampleTypes (JsArg.buf [0xd0, 0x0d, 2, 3])).structureClass
      ∧ (PACKER.new sampleImpl sampleTypes (JsArg.buf [0xd0, 0x0d, 1])).structureName
        = (PACKER.new sampleImpl sampleTypes (JsArg.buf [0xd0, 0x0d, 2, 3])).structureName)
      ∧ ((PACKER.new sampleImpl sampleTypes (JsArg.buf [0, 0, 7])).structureClass
        = (PACKER.new sampleImpl sampleTypes (JsArg.buf [0, 0, 8, 9])).structureClass
      ∧ (PACKER.new sampleImpl sampleTypes (JsArg.buf [0, 0, 7])).structureName
        = (PACKER.new sampleImpl sampleTypes (JsArg.buf [0, 0, 8, 9])).structureName) :=
  ⟨packer_selection_by_first_two_bytes sampleImpl sampleTypes [0xd0, 0x0d, 1]
      [0xd0, 0x0d, 2, 3] (by decide) (Or.inl (by decide)),
    packer_selection_by_first_two_bytes sampleImpl sampleTypes [0, 0, 7] [0, 0, 8, 9]
      (by decide) (Or.inr ⟨by decide, by decide⟩)⟩

/-! ### No state between calls -/

theorem held_set {S K V X R E : Type} (impl : PacketImpl S K V X R E) (p : PACKER S)
    (key : K) (value : V) (pp : Bool) : (PACKER.set impl p key value pp).2.held = p.held := by
  obtain ⟨ps⟩ := p
  cases ps <;> rfl

theorem held_pack {S K V X R E : Type} (impl : PacketImpl S K V X R E) (p : PACKER S)
    (x : Option X) : (PACKER.pack impl p x).2.held = p.held := by
  obtain ⟨ps⟩ := p
  cases ps <;> rfl

theorem held_unpack {S K V X R E : Type} (impl : PacketImpl S K V X R E) (p : PACKER S)
    (x : Option X) : (PACKER.unpack impl p x).2.held = p.held := by
  obtain ⟨ps⟩ := p
  cases ps <;> rfl

/-- Replacing an instance by one that holds the same structure keeps what every instance
holds. -/
theorem held_getElem?_set {S : Type} (w : List (PACKER S)) (j : Nat) (p p2 : PACKER S)
    (hj : w[j]? = some p) (hp : p2.held = p.held) (i : Nat) (q : PACKER S)
    (hi : w[i]? = some q) : ∃ q2, (w.set j p2)[i]? = some q2 ∧ q2.held = q.held := by
  by_cases hji : j = i
  · subst hji
    rw [hj] at hi
    cases hi
    have hlt : j < w.length := (List.getElem?_eq_some.mp hj).1
    exact ⟨p2, by simp [hlt], hp⟩
  · exact ⟨q, by simp [List.getElem?_set_ne hji, hi], rfl⟩

/-- One call keeps what every existing instance holds. -/
theorem held_applyCall {S K V X R E : Type} (impl : PacketImpl S K V X R E)
    (Types : TypeTable) (w : List (PACKER S)) (c : PackerCall K V X) (i : Nat)
    (q : PACKER S) (hi : w[i]? = some q) :
    ∃ q2, (applyCall impl Types w c)[i]? = some q2 ∧ q2.held = q.held := by
  cases c with
  | construct type =>
    have hlt : i < w.length := (List.getElem?_eq_some.mp hi).1
    exact ⟨q, by simp [applyCall, List.getElem?_append_left hlt, hi], rfl⟩
  | set j key value pp =>
    simp only [applyCall]
    rcases hj : w[j]? with _ | p
    · exact ⟨q, hi, rfl⟩
    · exact held_getElem?_set w j p _ hj (held_set impl p key value pp) i q hi
  | pack j x =>
    simp only [applyCall]
    rcases hj : w[j]? with _ | p
    · exact ⟨q, hi, rfl⟩
    · exact held_getElem?_set w j p _ hj (held_pack impl p x) i q hi
  | unpack j x =>
    simp only [applyCall]
    rcases hj : w[j]? with _ | p
    · exact ⟨q, hi, rfl⟩
    · exact held_getElem?_set w j p _ hj (held_unpack impl p x) i q hi

/-- A sequence of calls keeps what every existing instance holds. -/
theorem held_runCalls {S K V X R E : Type} (impl : PacketImpl S K V X R E)
    (Types : TypeTable) (calls : List (PackerCall K V X)) (w : List (PACKER S)) (i : Nat)
    (q : PACKER S) (hi : w[i]? = some q) :
    ∃ q2, (runCalls impl Types w calls)[i]? = some q2 ∧ q2.held = q.held := by
  induction calls generalizing w q with
  | nil => exact ⟨q, hi, rfl⟩
  | cons c cs ih =>
    obtain ⟨q1, h1, e1⟩ := held_applyCall impl Types w c i q hi
    obtain ⟨q2, h2, e2⟩ := ih (applyCall impl Types w c) q1 h1
    exact ⟨q2, by simpa [runCalls] using h2, e2.trans e1⟩

/-- C7: the codec keeps no state between calls. After any history of calls on any set of
existing instances, `new PACKER(type)` creates the instance that the constructor computes from
`type` and the type table alone; every instance that existed before the history still holds
the structure it held; and a single `pack()` or `unpack()` returns a `PACKER` that holds
the structure it held before the call. -/
theorem packer_keeps_no_state {S K V X R E : Type} (impl : PacketImpl S K V X R E)
    (Types : TypeTable) (w : List (PACKER S)) (calls : List (PackerCall K V X))
    (type : JsArg) (p : PACKER S) (x : Option X) :
    (runCalls impl Types w (calls ++ [PackerCall.construct type])).getLast?
        = some (PACKER.new impl Types type)
      ∧ (∀ (i : Nat) (q : PACKER S), w[i]? = some q →
          ∃ q2, (runCalls impl Types w calls)[i]? = some q2 ∧ q2.held = q.held)
      ∧ (PACKER.pack impl p x).2.held = p.held
      ∧ (PACKER.unpack impl p x).2.held = p.held := by
  refine ⟨?_, fun i q hi => held_runCalls impl Types calls w i q hi,
    held_pack impl p x, held_unpack impl p x⟩
  simp [runCalls, applyCall]

/-- Witness of C7: a `PACKER` for the name `simple.powerOn` is packed while another one is
built; it still holds the structure it held. -/
theorem packer_keeps_no_state_witness :
    ∃ q2, (runCalls sampleImpl sampleTypes
          [PACKER.new sampleImpl sampleTypes (JsArg.str (lit "simple.powerOn"))]
          [PackerCall.pack 0 none, PackerCall.construct (JsArg.buf [0xdd, 0x01]),
            PackerCall.unpack 1 none])[0]? = some q2
      ∧ q2.held = (PACKER.new sampleImpl sampleTypes (JsArg.str (lit "simple.powerOn"))).held :=
  (packer_keeps_no_state sampleImpl sampleTypes
    [PACKER.new sampleImpl sampleTypes (JsArg.str (lit "simple.powerOn"))]
    [PackerCall.pack 0 none, PackerCall.construct (JsArg.buf [0xdd, 0x01]),
      PackerCall.unpack 1 none] (JsArg.buf []) (PACKER.mk none) none).2.1 0 _ rfl

/-! ## The inputs of the `XboxDevice` constructor -/

theorem dedupInputs_nil : dedupInputs [] = [] := rfl

theorem dedupInputs_concat (l : List Input) (x : Input) :
    dedupInputs (l ++ [x]) = pushInput (dedupInputs l) x := by
  simp [dedupInputs, List.foldl_append]

theorem pushInput_eq (acc : List Input) (x : Input) :
    pushInput acc x
      = if x.valid && !acc.any (fun y => y.reference == x.reference) then acc ++ [x]
        else acc := by
  simp [pushInput, Input.valid]

/-- The references in the result are the references of the valid entries. -/
theorem dedupInputs_any_reference (l : List Input) (r : Option String) :
    (dedupInputs l).any (fun y => y.reference == r)
      = l.any (fun y => y.valid && y.reference == r) := by
  induction l using List.reverseRecOn with
  | nil => rfl
  | append_singleton l x ih =>
    rw [dedupInputs_concat, pushInput_eq]
    by_cases hv : x.valid = true
    · by_cases hd : (dedupInputs l).any (fun y => y.reference == x.reference) = true
      · have hd2 := hd
        simp only [hv, hd, Bool.not_true, Bool.and_false, Bool.false_eq_true, if_false]
        rw [ih, List.any_append]
        by_cases hr : x.reference = r
        · subst hr
          rw [← ih, hd2]
          simp
        · simp [hr]
      · simp only [Bool.not_eq_true] at hd
        simp [hv, hd, List.any_append, ih]
    · simp only [Bool.not_eq_true] at hv
      simp [hv, List.any_append, ih]

theorem truthy_iff (v : Option String) : truthy v = true ↔ ∃ t, v = some t ∧ t ≠ "" := by
  cases v with
  | none => simp [truthy]
  | some t => simp [truthy]

/-- Every entry of the result is valid. -/
theorem dedupInputs_valid (l : List Input) : ∀ y ∈ dedupInputs l, y.valid = true := by
  induction l using List.reverseRecOn with
  | nil => simp [dedupInputs_nil]
  | append_singleton l x ih =>
    rw [dedupInputs_concat, pushInput_eq]
    split_ifs with h
    · intro y hy
      rcases List.mem_append.mp hy with hy | hy
      · exact ih y hy
      · simp only [Bool.and_eq_true] at h
        simp only [List.mem_singleton] at hy
        rw [hy]
        exact h.1
    · exact ih

/-- No two entries of the result have the same reference. -/
theorem dedupInputs_pairwise (l : List Input) :
    (dedupInputs l).Pairwise (fun a b => a.reference ≠ b.reference) := by
  induction l using List.reverseRecOn with
  | nil => simp [dedupInputs_nil]
  | append_singleton l x ih =>
    rw [dedupInputs_concat, pushInput_eq]
    split_ifs with h
    · rw [List.pairwise_append]
      refine ⟨ih, List.pairwise_singleton _ _, ?_⟩
      intro a ha b hb
      simp only [List.mem_singleton] at hb
      subst hb
      simp only [Bool.and_eq_true, Bool.not_eq_true', List.any_eq_false, beq_iff_eq] at h
      exact h.2 a ha
    · exact ih

/-- The result is a sub-list of the input, in the same order. -/
theorem dedupInputs_sublist (l : List Input) : (dedupInputs l).Sublist l := by
  induction l using List.reverseRecOn with
  | nil => simp [dedupInputs_nil]
  | append_singleton l x ih =>
    rw [dedupInputs_concat, pushInput_eq]
    split_ifs with h
    · exact List.Sublist.append ih (List.Sublist.refl _)
    · exact ih.trans (List.sublist_append_left l [x])

/-- A list of valid entries with distinct references is left unchanged. -/
theorem dedupInputs_of_valid_pairwise (m : List Input) (hv : ∀ y ∈ m, y.valid = true)
    (hp : m.Pairwise (fun a b => a.reference ≠ b.reference)) : dedupInputs m = m := by
  induction m using List.reverseRecOn with
  | nil => rfl
  | append_singleton m x ih =>
    rw [List.pairwise_append] at hp
    have hm : dedupInputs m = m :=
      ih (fun y hy => hv y (List.mem_append_left _ hy)) hp.1
    have hx : x.valid = true := hv x (by simp)
    have hn : m.any (fun y => y.reference == x.reference) = false := by
      simp only [List.any_eq_false, beq_iff_eq]
      intro a ha
      exact hp.2.2 a ha x (by simp)
    rw [dedupInputs_concat, pushInput_eq, hm]
    simp [hx, hn]

/-- Continuing the loop from `acc` keeps `acc` in front; what follows is a sub-list of the
remaining inputs whose references do not occur in `acc`. -/
theorem foldl_pushInput_rest (C acc : List Input) :
    ∃ rest, C.foldl pushInput acc = acc ++ rest ∧ rest.Sublist C
      ∧ ∀ y ∈ rest, ∀ z ∈ acc, y.reference ≠ z.reference := by
  induction C generalizing acc with
  | nil => exact ⟨[], by simp, List.Sublist.refl _, by simp⟩
  | cons x C ih =>
    obtain ⟨rest, hr, hs, hd⟩ := ih (pushInput acc x)
    rw [List.foldl_cons, hr, pushInput_eq]
    rw [pushInput_eq] at hd
    split_ifs at hd ⊢ with h
    · refine ⟨x :: rest, by simp, List.Sublist.cons₂ x hs, ?_⟩
      intro y hy z hz
      rcases List.mem_cons.mp hy with hy | hy
      · subst hy
        simp only [Bool.and_eq_true, Bool.not_eq_true', List.any_eq_false, beq_iff_eq] at h
        exact fun e => h.2 z hz e.symm
      · exact hd y hy z (List.mem_append_left _ hz)
    · exact ⟨rest, rfl, List.Sublist.cons x hs, hd⟩

theorem firstValidAt_append_lt (l : List Input) (x : Input) (i : Nat) (hi : i < l.length) :
    firstValidAt (l ++ [x]) i = firstValidAt l i := by
  simp [firstValidAt, List.getElem?_append_left hi, List.take_append_of_le_length (Nat.le_of_lt hi)]

theorem firstValidAt_append_length (l : List Input) (x : Input) :
    firstValidAt (l ++ [x]) l.length
      = (x.valid && !l.any (fun y => y.valid && y.reference == x.reference)) := by
  simp [firstValidAt]

theorem firstValidPerReference_concat (l : List Input) (x : Input) :
    firstValidPerReference (l ++ [x])
      = firstValidPerReference l
        ++ (if x.valid && !l.any (fun y => y.valid && y.reference == x.reference) then [x]
            else []) := by
  unfold firstValidPerReference
  rw [List.length_append, List.length_singleton, List.range_succ, List.filter_append,
    List.filterMap_append]
  congr 1
  · have hf : (List.range l.length).filter (firstValidAt (l ++ [x]))
        = (List.range l.length).filter (firstValidAt l) := by
      apply List.filter_congr
      intro i hi
      exact firstValidAt_append_lt l x i (List.mem_range.mp hi)
    rw [hf]
    apply List.filterMap_congr
    intro i hi
    have hlt : i < l.length := List.mem_range.mp (List.mem_filter.mp hi).1
    exact List.getElem?_append_left hlt
  · rw [List.filter_singleton, firstValidAt_append_length]
    split_ifs with h
    · simp [h]
    · simp only [Bool.not_eq_true] at h
      simp [h]

/-- The loop computes the list described in words. -/
theorem dedupInputs_eq_firstValidPerReference (l : List Input) :
    dedupInputs l = firstValidPerReference l := by
  induction l using List.reverseRecOn with
  | nil => rfl
  | append_singleton l x ih =>
    rw [dedupInputs_concat, pushInput_eq, firstValidPerReference_concat,
      dedupInputs_any_reference, ih]
    split_ifs <;> simp

/-- C9: for every list of default inputs and every list of configured inputs (or none), no two
entries of the input list computed by the constructor have the same reference, and every entry
has a non-empty name and a non-empty reference. -/
theorem constructor_inputs_distinct_and_named (DefaultInputs : List Input)
    (deviceInputs : Option (List Input)) :
    (constructorInputs DefaultInputs deviceInputs).Pairwise
        (fun a b => a.reference ≠ b.reference)
      ∧ ∀ x ∈ constructorInputs DefaultInputs deviceInputs,
          (∃ n, x.name = some n ∧ n ≠ "") ∧ (∃ r, x.reference = some r ∧ r ≠ "") := by
  refine ⟨dedupInputs_pairwise _, ?_⟩
  intro x hx
  have h := dedupInputs_valid _ x hx
  simp only [Input.valid, Bool.and_eq_true] at h
  exact ⟨(truthy_iff _).mp h.1, (truthy_iff _).mp h.2⟩

/-- C10: the input list of the constructor is an order-preserving sub-list of the default
inputs followed by the configured inputs; it consists of exactly the entries that are the
first valid entry (non-empty name and reference) with their reference; it starts with the
de-duplicated default inputs, and what follows comes from the configured inputs and has no
reference of a valid default input; and the de-duplication leaves its own output unchanged. -/
theorem constructor_inputs_keep_first_valid (DefaultInputs : List Input)
    (deviceInputs : Option (List Input)) :
    (constructorInputs DefaultInputs deviceInputs).Sublist
        (DefaultInputs ++ deviceInputs.getD [])
      ∧ constructorInputs DefaultInputs deviceInputs
        = firstValidPerReference (DefaultInputs ++ deviceInputs.getD [])
      ∧ (∃ rest, constructorInputs DefaultInputs deviceInputs
            = dedupInputs DefaultInputs ++ rest
          ∧ rest.Sublist (deviceInputs.getD [])
          ∧ ∀ y ∈ rest, ∀ d ∈ DefaultInputs, d.valid = true → y.reference ≠ d.reference)
      ∧ dedupInputs (constructorInputs DefaultInputs deviceInputs)
        = constructorInputs DefaultInputs deviceInputs := by
  refine ⟨dedupInputs_sublist _, dedupInputs_eq_firstValidPerReference _, ?_,
    dedupInputs_of_valid_pairwise _ (dedupInputs_valid _) (dedupInputs_pairwise _)⟩
  obtain ⟨rest, hr, hs, hd⟩ :=
    foldl_pushInput_rest (deviceInputs.getD []) (dedupInputs DefaultInputs)
  refine ⟨rest, ?_, hs, ?_⟩
  · simpa [constructorInputs, dedupInputs, List.foldl_append] using hr
  · intro y hy d hdm hdv e
    have hany : (dedupInputs DefaultInputs).any (fun z => z.reference == d.reference)
        = true := by
      rw [dedupInputs_any_reference]
      exact List.any_eq_true.mpr ⟨d, hdm, by simp [hdv]⟩
    obtain ⟨z, hz, hze⟩ := List.any_eq_true.mp hany
    exact hd y hy z hz (by rw [e]; exact (beq_iff_eq.mp hze).symm)

/-! ## The state snapshot of the device -/

namespace XboxDevice

theorem inputsLoop_snapshot (l : List Input) (d : XboxDevice) (i : Nat) :
    (inputsLoop d i l).snapshot = d.snapshot := by
  induction l generalizing d i with
  | nil => rfl
  | cons x l ih => rw [inputsLoop, ih]; rfl

theorem sensorsLoop_snapshot (l : List SensorInput) (d : XboxDevice) (i : Nat) :
    (sensorsLoop d i l).1.snapshot = d.snapshot := by
  induction l generalizing d i with
  | nil => rfl
  | cons x l ih =>
    rw [sensorsLoop]
    split_ifs
    · rfl
    · rw [ih]; rfl

theorem buttonsLoop_snapshot (l : List Button) (d : XboxDevice) (i : Nat) :
    (buttonsLoop d i l).1.snapshot = d.snapshot := by
  induction l generalizing d i with
  | nil => rfl
  | cons x l ih =>
    rw [buttonsLoop]
    split_ifs
    · rfl
    · rw [ih]; rfl

theorem prepareMainServices_snapshot (d : XboxDevice) :
    (prepareMainServices d).snapshot = d.snapshot := rfl

theorem prepareInputs_snapshot (d : XboxDevice) :
    (prepareInputs d).snapshot = d.snapshot := by
  simp only [prepareInputs, inputsLoop_snapshot]

theorem prepareVolumeService_snapshot (d : XboxDevice) :
    (prepareVolumeService d).snapshot = d.snapshot := by
  unfold prepareVolumeService
  simp only []
  split_ifs <;> rfl

theorem prepareSensorServices_snapshot (d : XboxDevice) :
    (prepareSensorServices d).snapshot = d.snapshot := by
  unfold prepareSensorServices
  simp only []
  split_ifs <;> rfl

theorem prepareAccessory_snapshot (d : XboxDevice) :
    (prepareAccessory d).1.snapshot = d.snapshot := by
  unfold prepareAccessory
  simp only []
  split_ifs <;>
    simp only [sensorsLoop_snapshot, buttonsLoop_snapshot, prepareSensorServices_snapshot,
      prepareVolumeService_snapshot, prepareInputs_snapshot, prepareMainServices_snapshot]

theorem startIntegrations_snapshot (d : XboxDevice) :
    (startIntegrations d).snapshot = d.snapshot := by
  unfold startIntegrations
  simp only []
  split_ifs <;> rfl

theorem readSavedFiles_snapshot (d : XboxDevice) (files : SavedFiles) :
    (readSavedFiles d files).1.snapshot = d.snapshot := by
  unfold readSavedFiles
  repeat' split
  all_goals rfl

theorem onPrepareAccessory_snapshot (d : XboxDevice) (files : SavedFiles) :
    (onPrepareAccessory d files).device.snapshot = d.snapshot := by
  unfold onPrepareAccessory
  simp only []
  split
  · exact (readSavedFiles_snapshot _ _).trans (startIntegrations_snapshot _)
  · split
    · exact (prepareAccessory_snapshot _).trans
        ((readSavedFiles_snapshot _ _).trans (startIntegrations_snapshot _))
    · exact (prepareAccessory_snapshot _).trans
        ((readSavedFiles_snapshot _ _).trans (startIntegrations_snapshot _))

theorem activeOnSet_device (d : XboxDevice) (state : Bool) (callError : Option String) :
    (activeOnSet d state callError).device = d := by
  unfold activeOnSet
  split_ifs <;> rfl

theorem activeIdentifierOnSet_device (d : XboxDevice) (activeIdentifier : Nat)
    (powerAfterWait : Bool) (callError : Option String) :
    (activeIdentifierOnSet d activeIdentifier powerAfterWait callError).device = d := by
  unfold activeIdentifierOnSet
  split
  · rfl
  · split_ifs <;> rfl

theorem configuredNameOnSet_snapshot (d : XboxDevice) (inputReference : Option String)
    (value : String) (callError : Option String) :
    (configuredNameOnSet d inputReference value callError).device.snapshot = d.snapshot := by
  unfold configuredNameOnSet
  simp only []
  repeat' split
  all_goals rfl

theorem targetVisibilityOnSet_snapshot (d : XboxDevice) (inputReference : Option String)
    (state : Nat) (callError : Option String) :
    (targetVisibilityOnSet d inputReference state callError).device.snapshot = d.snapshot := by
  unfold targetVisibilityOnSet
  split_ifs <;> rfl

theorem buttonOnSet_snapshot (d : XboxDevice) (tables : CommandTables) (i : Nat)
    (state : Bool) (callError : Option String) :
    (buttonOnSet d tables i state callError).device.snapshot = d.snapshot := by
  unfold buttonOnSet
  split
  · rfl
  · simp only []
    split <;> rfl

theorem updateSensorsInputs_complete (power : Bool) (reference : String)
    (services : List Service) (l : List SensorInput) (i : Nat)
    (h : i + l.length ≤ services.length) :
    (updateSensorsInputs power reference services i l).2.2 = false := by
  induction l generalizing i with
  | nil => rfl
  | cons x l ih =>
    have hi : i < services.length := by simp at h; omega
    rw [updateSensorsInputs]
    simp only [List.getElem?_eq_getElem hi]
    exact ih (i + 1) (by simp at h; omega)

theorem updateButtons_complete (power : Bool) (reference : String)
    (services : List Service) (l : List Button) (i : Nat)
    (h : i + l.length ≤ services.length) :
    (updateButtons power reference services i l).2.2 = false := by
  induction l generalizing i with
  | nil => rfl
  | cons x l ih =>
    have hi : i < services.length := by simp at h; omega
    rw [updateButtons]
    simp only [List.getElem?_eq_getElem hi]
    exact ih (i + 1) (by simp at h; omega)

theorem updateInputSensor_services (d : XboxDevice) (power : Bool) (reference : String) :
    (updateInputSensor d power reference).1.sensorsInputsServices = d.sensorsInputsServices
      ∧ (updateInputSensor d power reference).1.sensorsInputsConfigured
        = d.sensorsInputsConfigured
      ∧ (updateInputSensor d power reference).1.buttonsServices = d.buttonsServices
      ∧ (updateInputSensor d power reference).1.buttonsConfigured = d.buttonsConfigured := by
  unfold updateInputSensor
  split_ifs <;> exact ⟨rfl, rfl, rfl, rfl⟩

theorem updateScreenSaverSensor_services (d : XboxDevice) (power : Bool) (reference : String) :
    (updateScreenSaverSensor d power reference).1.sensorsInputsServices
        = d.sensorsInputsServices
      ∧ (updateScreenSaverSensor d power reference).1.sensorsInputsConfigured
        = d.sensorsInputsConfigured
      ∧ (updateScreenSaverSensor d power reference).1.buttonsServices = d.buttonsServices
      ∧ (updateScreenSaverSensor d power reference).1.buttonsConfigured
        = d.buttonsConfigured := by
  unfold updateScreenSaverSensor
  simp only []
  split_ifs <;> exact ⟨rfl, rfl, rfl, rfl⟩

/-- When the listener of `stateChanged` throws nothing, the snapshot is the one of the event. -/
theorem onStateChanged_snapshot (d : XboxDevice) (power : Bool) (volume : Nat) (mute : Bool)
    (mediaState : Nat) (titleId : String) (reference : String)
    (h : (onStateChanged d power volume mute mediaState titleId reference).thrown = none) :
    (onStateChanged d power volume mute mediaState titleId reference).device.snapshot
      = (power, volume, mute, mediaState, reference) := by
  unfold onStateChanged at h ⊢
  simp only [] at h ⊢
  split_ifs at h ⊢ with h1 h2
  rfl

/-- The listener of `stateChanged` throws nothing when every configured input sensor and
every configured button has its service. -/
theorem onStateChanged_completes (d : XboxDevice) (power : Bool) (volume : Nat) (mute : Bool)
    (mediaState : Nat) (titleId : String) (reference : String)
    (hs : d.sensorsInputsConfigured.length ≤ d.sensorsInputsServices.length)
    (hb : d.buttonsConfigured.length ≤ d.buttonsServices.length) :
    (onStateChanged d power volume mute mediaState titleId reference).thrown = none := by
  obtain ⟨a1, a2, a3, a4⟩ := updateInputSensor_services d power reference
  obtain ⟨b1, b2, b3, b4⟩ :=
    updateScreenSaverSensor_services (updateInputSensor d power reference).1 power reference
  have hsens : (updateSensorsInputs power reference
      (updateScreenSaverSensor (updateInputSensor d power reference).1 power
        reference).1.sensorsInputsServices 0
      (updateScreenSaverSensor (updateInputSensor d power reference).1 power
        reference).1.sensorsInputsConfigured).2.2 = false := by
    apply updateSensorsInputs_complete
    rw [b1, b2, a1, a2]
    omega
  unfold onStateChanged
  simp only [hsens, Bool.false_eq_true, if_false]
  rw [updateButtons_complete _ _ _ _ 0 (by
    show 0 + List.length (XboxDevice.buttonsConfigured _) ≤ List.length (XboxDevice.buttonsServices _)
    rw [show ∀ (x : XboxDevice) (y : List SensorInput),
      XboxDevice.buttonsConfigured { x with sensorsInputsConfigured := y } = x.buttonsConfigured
        from fun _ _ => rfl,
      show ∀ (x : XboxDevice) (y : List SensorInput),
      XboxDevice.buttonsServices { x with sensorsInputsConfigured := y } = x.buttonsServices
        from fun _ _ => rfl, b3, b4, a3, a4]
    omega)]
  rfl

/-- Every handler except the listeners of `stateChanged` and of `powerOnError` leaves the
snapshot as it was. -/
theorem handle_snapshot (tables : CommandTables) (d : XboxDevice) (h : Handler)
    (hs : h.isStateChanged = false) (hp : h.isPowerOnError = false) :
    (handle tables d h).device.snapshot = d.snapshot := by
  cases h
  case stateChanged => exact absurd hs (by simp [Handler.isStateChanged])
  case webPowerOnError => exact absurd hp (by simp [Handler.isPowerOnError])
  case prepareAccessory files => exact onPrepareAccessory_snapshot d files
  case activeOnSet state callError =>
    exact congrArg XboxDevice.snapshot (activeOnSet_device d state callError)
  case activeIdentifierOnSet a b c =>
    exact congrArg XboxDevice.snapshot (activeIdentifierOnSet_device d a b c)
  case configuredNameOnSet a b c => exact configuredNameOnSet_snapshot d a b c
  case targetVisibilityOnSet a b c => exact targetVisibilityOnSet_snapshot d a b c
  case buttonOnSet i state callError => exact buttonOnSet_snapshot d tables i state callError
  all_goals rfl

/-- A sequence of such handlers leaves the snapshot as it was. -/
theorem handleAll_snapshot (tables : CommandTables) (hs : List Handler) (d : XboxDevice)
    (h : ∀ x ∈ hs, x.isStateChanged = false ∧ x.isPowerOnError = false) :
    (handleAll tables d hs).snapshot = d.snapshot := by
  induction hs generalizing d with
  | nil => rfl
  | cons x xs ih =>
    have hx := h x (List.mem_cons_self x xs)
    have := ih (handle tables d x).device (fun y hy => h y (List.mem_cons_of_mem x hy))
    simp only [handleAll, List.foldl_cons] at this ⊢
    rw [this]
    exact handle_snapshot tables d x hx.1 hx.2

end XboxDevice

/-- The input list of the constructor for the sample inputs. -/
theorem constructorInputs_sample :
    constructorInputs sampleDefaultInputs (some sampleConfiguredInputs)
      = sampleDefaultInputs ++ [{ name := some "Game", reference := some "Game.One" }] := by
  decide

/-- C8 (counterexample): on a freshly constructed device the listener of `powerOnError` of the
web API client, which is not the listener of `stateChanged`, changes the snapshot; and on a
freshly constructed device with an input sensor, whose service does not exist yet, the
listener of `stateChanged` throws and does not set the snapshot to the values of the event. -/
theorem snapshot_written_by_powerOnError :
    (Handler.webPowerOnError true).isStateChanged = false
      ∧ (handle sampleTables (XboxDevice.new sampleDefaultInputs sampleConfig)
          (Handler.webPowerOnError true)).device.snapshot
        ≠ (XboxDevice.new sampleDefaultInputs sampleConfig).snapshot
      ∧ (handle sampleTables (XboxDevice.new sampleDefaultInputs sampleSensorConfig)
          (Handler.stateChanged true 30 false 1 "" "Game.One")).device.snapshot
        ≠ (true, 30, false, 1, "Game.One") := by
  decide

/-- C8 (amended): the snapshot (`power`, `volume`, `mute`, `mediaState`, `reference`) is
written only by the listener of `stateChanged`, which sets each field to the value of the event
when it runs to its end (it does when every configured input sensor and button has its
service), and by the listener of `powerOnError` of the web API client, which sets `power` to
the value it carries and leaves the other four fields; every other handler, and every sequence
of other handlers, leaves the five fields unchanged. -/
theorem snapshot_written_by_two_listeners (tables : CommandTables) (d : XboxDevice)
    (h : Handler) :
    (∀ power volume mute mediaState titleId reference,
        h = Handler.stateChanged power volume mute mediaState titleId reference →
        ((handle tables d h).thrown = none →
          (handle tables d h).device.snapshot = (power, volume, mute, mediaState, reference))
        ∧ (d.sensorsInputsConfigured.length ≤ d.sensorsInputsServices.length →
          d.buttonsConfigured.length ≤ d.buttonsServices.length →
          (handle tables d h).thrown = none))
      ∧ (∀ power, h = Handler.webPowerOnError power →
          (handle tables d h).device.snapshot
            = (power, d.volume, d.mute, d.mediaState, d.reference))
      ∧ (h.isStateChanged = false → h.isPowerOnError = false →
          (handle tables d h).device.snapshot = d.snapshot)
      ∧ (∀ hs : List Handler, (∀ x ∈ hs, x.isStateChanged = false ∧ x.isPowerOnError = false) →
          (handleAll tables d hs).snapshot = d.snapshot) := by
  refine ⟨?_, ?_, XboxDevice.handle_snapshot tables d h,
    fun hs hh => XboxDevice.handleAll_snapshot tables hs d hh⟩
  · rintro power volume mute mediaState titleId reference rfl
    exact ⟨XboxDevice.onStateChanged_snapshot d power volume mute mediaState titleId reference,
      XboxDevice.onStateChanged_completes d power volume mute mediaState titleId reference⟩
  · rintro power rfl
    rfl

/-- Witness of C8 (amended): a status message on a freshly constructed device without sensors
and buttons sets the snapshot, and a key of the remote control then leaves it. -/
theorem snapshot_written_by_two_listeners_witness :
    (handle sampleTables (XboxDevice.new sampleDefaultInputs sampleConfig)
        (Handler.stateChanged true 30 false 1 "" "Game.One")).device.snapshot
        = (true, 30, false, 1, "Game.One")
      ∧ (handle sampleTables
          (handle sampleTables (XboxDevice.new sampleDefaultInputs sampleConfig)
            (Handler.stateChanged true 30 false 1 "" "Game.One")).device
          (Handler.remoteKeyOnSet 4 none)).device.snapshot
        = (handle sampleTables (XboxDevice.new sampleDefaultInputs sampleConfig)
            (Handler.stateChanged true 30 false 1 "" "Game.One")).device.snapshot :=
  ⟨((snapshot_written_by_two_listeners sampleTables
      (XboxDevice.new sampleDefaultInputs sampleConfig)
      (Handler.stateChanged true 30 false 1 "" "Game.One")).1
        true 30 false 1 "" "Game.One" rfl).1 (by decide),
    (snapshot_written_by_two_listeners sampleTables
      (handle sampleTables (XboxDevice.new sampleDefaultInputs sampleConfig)
        (Handler.stateChanged true 30 false 1 "" "Game.One")).device
      (Handler.remoteKeyOnSet 4 none)).2.2.1 (by decide) (by decide)⟩

/-! ## Media state getters -/

theorem mediaStateMap_defined (m : Nat) (hm : m ≤ 4) :
    ∃ v, [2, 0, 1, 3, 4][m]? = some v ∧ v ≤ 4
      ∧ (m = 0 → v = 2) ∧ (m = 1 → v = 0) ∧ (m = 2 → v = 1) ∧ (m = 3 → v = 3)
      ∧ (m = 4 → v = 4) := by
  interval_cases m
  · exact ⟨2, by simp⟩
  · exact ⟨0, by simp⟩
  · exact ⟨1, by simp⟩
  · exact ⟨3, by simp⟩
  · exact ⟨4, by simp⟩

theorem mediaStateMap_injective (m k v : Nat) (hm : m ≤ 4) (hk : k ≤ 4)
    (h1 : [2, 0, 1, 3, 4][m]? = some v) (h2 : [2, 0, 1, 3, 4][k]? = some v) : k = m := by
  interval_cases m <;> interval_cases k <;> simp at h1 h2 ⊢ <;> omega

theorem mediaStateOnGet_value (tables : CommandTables) (d : XboxDevice) (v : Nat)
    (h : [2, 0, 1, 3, 4][d.mediaState]? = some v) :
    (handle tables d Handler.currentMediaStateOnGet).value = some (HapValue.num v) := by
  show (XboxDevice.mediaStateOnGet d).value = _
  simp [XboxDevice.mediaStateOnGet, XboxDevice.getter, h]

theorem index_mediaStateOnGet_value (x : XBOXDEVICE) (v : Nat)
    (h : [2, 0, 1, 3, 4][x.mediaState]? = some v) :
    x.currentMediaStateOnGet.value = some (HapValue.num v) := by
  simp [XBOXDEVICE.currentMediaStateOnGet, XBOXDEVICE.mediaStateValue, XBOXDEVICE.hapNum, h]

/-- C11: the `CurrentMediaState` and `TargetMediaState` getters of `xboxdevice.js` and of
`index.js` always return the same value; for a media state `m` in 0..4 that value is
`[2, 0, 1, 3, 4][m]` (0 gives 2, 1 gives 0, 2 gives 1, 3 and 4 are unchanged), it lies in 0..4,
different media states in 0..4 give different values, and every value in 0..4 is given by
a media state in 0..4. -/
theorem media_state_getters (tables : CommandTables) (d : XboxDevice) (x : XBOXDEVICE) :
    (handle tables d Handler.currentMediaStateOnGet).value
        = (handle tables d Handler.targetMediaStateOnGet).value
      ∧ x.currentMediaStateOnGet.value = x.targetMediaStateOnGet.value
      ∧ (∀ m : Nat, m ≤ 4 → d.mediaState = m → x.mediaState = m →
          ∃ v, [2, 0, 1, 3, 4][m]? = some v
            ∧ (m = 0 → v = 2) ∧ (m = 1 → v = 0) ∧ (m = 2 → v = 1) ∧ (m = 3 → v = 3)
            ∧ (m = 4 → v = 4) ∧ v ≤ 4
            ∧ (handle tables d Handler.currentMediaStateOnGet).value = some (HapValue.num v)
            ∧ (handle tables d Handler.targetMediaStateOnGet).value = some (HapValue.num v)
            ∧ x.currentMediaStateOnGet.value = some (HapValue.num v)
            ∧ x.targetMediaStateOnGet.value = some (HapValue.num v)
            ∧ (∀ d2 : XboxDevice, d2.mediaState ≤ 4 →
                (handle tables d2 Handler.currentMediaStateOnGet).value
                  = some (HapValue.num v) → d2.mediaState = m))
      ∧ (∀ w : Nat, w ≤ 4 → ∃ m : Nat, m ≤ 4 ∧ [2, 0, 1, 3, 4][m]? = some w) := by
  refine ⟨rfl, rfl, ?_, ?_⟩
  · intro m hm hd hx
    obtain ⟨v, hv, hle, h0, h1, h2, h3, h4⟩ := mediaStateMap_defined m hm
    have hdv := mediaStateOnGet_value tables d v (by rw [hd]; exact hv)
    have hxv := index_mediaStateOnGet_value x v (by rw [hx]; exact hv)
    refine ⟨v, hv, h0, h1, h2, h3, h4, hle, hdv, hdv, hxv, hxv, ?_⟩
    intro d2 hd2 hval
    obtain ⟨w, hw, -⟩ := mediaStateMap_defined d2.mediaState hd2
    rw [mediaStateOnGet_value tables d2 w hw] at hval
    have hwv : w = v := by simpa using hval
    exact mediaStateMap_injective m d2.mediaState v hm hd2 hv (hwv ▸ hw)
  · intro w hw
    interval_cases w
    · exact ⟨1, by decide, rfl⟩
    · exact ⟨2, by decide, rfl⟩
    · exact ⟨0, by decide, rfl⟩
    · exact ⟨3, by decide, rfl⟩
    · exact ⟨4, by decide, rfl⟩

/-- Witness of C11: a device of each file in the Xbox media state 1 (PLAY); the getters return
the HomeKit value 0 (PLAY). -/
theorem media_state_getters_witness :
    (handle sampleTables
        { XboxDevice.new sampleDefaultInputs sampleConfig with mediaState := 1 }
        Handler.currentMediaStateOnGet).value = some (HapValue.num 0)
      ∧ XBOXDEVICE.currentMediaStateOnGet
          { XBOXDEVICE.new sampleDefaultInputs sampleIndexConfig with mediaState := 1 }
        = { value := some (HapValue.num 0) } :=
  have h := (media_state_getters sampleTables
    { XboxDevice.new sampleDefaultInputs sampleConfig with mediaState := 1 }
    { XBOXDEVICE.new sampleDefaultInputs sampleIndexConfig with mediaState := 1 }).2.2.1
      1 (by decide) rfl rfl
  ⟨by
    obtain ⟨v, hv, -, h1, -, -, -, -, hc, -⟩ := h
    rw [hc, h1 rfl], by decide⟩

/-! ## The input filter and the numbers of services -/

theorem pushFiltered_eq (d : XboxDevice) (acc : List Input) (input : Input) :
    XboxDevice.pushFiltered d acc input
      = if keptByFlags (d.getInputsFromDevice == some true) d.filterGames d.filterApps
          d.filterSystemApps d.filterDlc input then acc ++ [input] else acc := by
  unfold XboxDevice.pushFiltered keptByFlags
  simp only []
  generalize (d.getInputsFromDevice == some true) = e
  generalize (input.contentType == some "Game") = g
  generalize (input.contentType == some "App") = a
  generalize (input.contentType == some "systemApp") = y
  generalize (input.contentType == some "Dlc") = c
  cases e <;> cases d.filterGames <;> cases d.filterApps <;> cases d.filterSystemApps
    <;> cases d.filterDlc <;> cases g <;> cases a <;> cases y <;> cases c <;> rfl

theorem index_pushFiltered_eq (x : XBOXDEVICE) (acc : List Input) (input : Input) :
    XBOXDEVICE.pushFiltered x acc input
      = if keptByFlags x.getInputsFromDevice x.filterGames x.filterApps
          x.filterSystemApps x.filterDlc input then acc ++ [input] else acc := by
  unfold XBOXDEVICE.pushFiltered keptByFlags
  simp only [bne]
  generalize (input.contentType == some "Game") = g
  generalize (input.contentType == some "App") = a
  generalize (input.contentType == some "systemApp") = y
  generalize (input.contentType == some "Dlc") = c
  cases x.getInputsFromDevice <;> cases x.filterGames <;> cases x.filterApps
    <;> cases x.filterSystemApps <;> cases x.filterDlc <;> cases g <;> cases a <;> cases y
    <;> cases c <;> rfl

/-- Pushing the elements that satisfy `p` one by one is filtering. -/
theorem foldl_push_eq_filter {α : Type} (p : α → Bool) (l acc : List α) :
    l.foldl (fun acc x => if p x then acc ++ [x] else acc) acc = acc ++ l.filter p := by
  induction l generalizing acc with
  | nil => simp
  | cons x l ih =>
    rw [List.foldl_cons, ih]
    by_cases h : p x = true
    · simp [h, List.filter_cons]
    · simp [h, List.filter_cons]

theorem filterInputs_eq_filter (d : XboxDevice) (l : List Input) :
    d.filterInputs l
      = l.filter (keptByFlags (d.getInputsFromDevice == some true) d.filterGames d.filterApps
          d.filterSystemApps d.filterDlc) := by
  have h : XboxDevice.pushFiltered d = fun acc x =>
      if keptByFlags (d.getInputsFromDevice == some true) d.filterGames d.filterApps
        d.filterSystemApps d.filterDlc x then acc ++ [x] else acc := by
    funext acc x
    exact pushFiltered_eq d acc x
  rw [XboxDevice.filterInputs, h, foldl_push_eq_filter]
  simp

theorem index_filterInputs_eq_filter (x : XBOXDEVICE) (l : List Input) :
    x.filterInputs l
      = x.inputsArr ++ l.filter (keptByFlags x.getInputsFromDevice x.filterGames x.filterApps
          x.filterSystemApps x.filterDlc) := by
  have h : XBOXDEVICE.pushFiltered x = fun acc i =>
      if keptByFlags x.getInputsFromDevice x.filterGames x.filterApps
        x.filterSystemApps x.filterDlc i then acc ++ [i] else acc := by
    funext acc i
    exact index_pushFiltered_eq x acc i
  rw [XBOXDEVICE.filterInputs, h, foldl_push_eq_filter]

/-- C14: the filter of `xboxdevice.js` and the filter of `index.js` (on a device whose
`inputsArr` is still empty) both compute the list of the inputs, in their original order, that
are kept according to the description: with `getInputsFromDevice` enabled an input is kept if
and only if its content type is none of the categories whose flag is set, and with it
disabled every input is kept; therefore the two filters keep the same inputs whenever the
flags are the same. -/
theorem input_filters_agree (d : XboxDevice) (x : XBOXDEVICE) (l : List Input) :
    d.filterInputs l
        = l.filter (keptByFlags (d.getInputsFromDevice == some true) d.filterGames
            d.filterApps d.filterSystemApps d.filterDlc)
      ∧ (x.inputsArr = [] →
          x.filterInputs l
            = l.filter (keptByFlags x.getInputsFromDevice x.filterGames x.filterApps
                x.filterSystemApps x.filterDlc))
      ∧ (∀ input, keptByFlags true d.filterGames d.filterApps d.filterSystemApps d.filterDlc
            input = true
          ↔ ¬ ((d.filterGames = true ∧ input.contentType = some "Game")
              ∨ (d.filterApps = true ∧ input.contentType = some "App")
              ∨ (d.filterSystemApps = true ∧ input.contentType = some "systemApp")
              ∨ (d.filterDlc = true ∧ input.contentType = some "Dlc")))
      ∧ ((d.getInputsFromDevice == some true) = false → d.filterInputs l = l)
      ∧ (x.inputsArr = [] → x.getInputsFromDevice = false → x.filterInputs l = l)
      ∧ (x.inputsArr = [] → (d.getInputsFromDevice == some true) = x.getInputsFromDevice →
          d.filterGames = x.filterGames → d.filterApps = x.filterApps →
          d.filterSystemApps = x.filterSystemApps → d.filterDlc = x.filterDlc →
          d.filterInputs l = x.filterInputs l) := by
  refine ⟨filterInputs_eq_filter d l, ?_, ?_, ?_, ?_, ?_⟩
  · intro h
    rw [index_filterInputs_eq_filter, h, List.nil_append]
  · intro input
    cases d.filterGames <;> cases d.filterApps <;> cases d.filterSystemApps
      <;> cases d.filterDlc <;> simp [keptByFlags] <;> tauto
  · intro h
    rw [filterInputs_eq_filter, h]
    simp [keptByFlags]
  · intro h hg
    rw [index_filterInputs_eq_filter, h, hg]
    simp [keptByFlags]
  · intro h hg h1 h2 h3 h4
    rw [filterInputs_eq_filter, index_filterInputs_eq_filter, h, hg, h1, h2, h3, h4,
      List.nil_append]

/-- Witness of C14: with the filter for games enabled, the `index.js` filter drops the game
and keeps the application. -/
theorem input_filters_agree_witness :
    (XBOXDEVICE.new sampleDefaultInputs sampleIndexConfig).filterInputs
        [{ name := some "Halo", reference := some "Halo", contentType := some "Game" },
         { name := some "Netflix", reference := some "Netflix", contentType := some "App" }]
      = [{ name := some "Netflix", reference := some "Netflix", contentType := some "App" }] :=
  ((input_filters_agree (XboxDevice.new sampleDefaultInputs sampleConfig)
    (XBOXDEVICE.new sampleDefaultInputs sampleIndexConfig)
    [{ name := some "Halo", reference := some "Halo", contentType := some "Game" },
     { name := some "Netflix", reference := some "Netflix", contentType := some "App" }]).2.1
      rfl).trans (by decide)

/-- C13: in `prepareAccessory` of `index.js`, for all numbers of inputs, input sensors and
buttons, the input count is `min(inputs, 93)`, each of the three counts is non-negative and
at most the number configured, and the three counts add up to at most 94; the counts of a
device are these counts for the lengths of `inputsArr`, `sensorInputs` and `buttons`. -/
theorem index_service_counts (x : XBOXDEVICE) (inputs sensors buttons : Nat) :
    XBOXDEVICE.maxInputsCount inputs = min inputs 93
      ∧ 0 ≤ XBOXDEVICE.maxInputsCount inputs
      ∧ XBOXDEVICE.maxInputsCount inputs ≤ inputs
      ∧ 0 ≤ XBOXDEVICE.maxInputsSensorsCount (XBOXDEVICE.maxInputsCount inputs) sensors
      ∧ XBOXDEVICE.maxInputsSensorsCount (XBOXDEVICE.maxInputsCount inputs) sensors ≤ sensors
      ∧ 0 ≤ XBOXDEVICE.maxButtonsCount (XBOXDEVICE.maxInputsCount inputs)
          (XBOXDEVICE.maxInputsSensorsCount (XBOXDEVICE.maxInputsCount inputs) sensors) buttons
      ∧ XBOXDEVICE.maxButtonsCount (XBOXDEVICE.maxInputsCount inputs)
          (XBOXDEVICE.maxInputsSensorsCount (XBOXDEVICE.maxInputsCount inputs) sensors) buttons
        ≤ buttons
      ∧ XBOXDEVICE.maxInputsCount inputs
          + XBOXDEVICE.maxInputsSensorsCount (XBOXDEVICE.maxInputsCount inputs) sensors
          + XBOXDEVICE.maxButtonsCount (XBOXDEVICE.maxInputsCount inputs)
              (XBOXDEVICE.maxInputsSensorsCount (XBOXDEVICE.maxInputsCount inputs) sensors)
              buttons ≤ 94
      ∧ x.serviceCounts.1 = XBOXDEVICE.maxInputsCount x.inputsArr.length
      ∧ x.serviceCounts.2.1
        = XBOXDEVICE.maxInputsSensorsCount x.serviceCounts.1 x.sensorInputs.length
      ∧ (∀ maxButtons, x.serviceCounts.2.2 = some maxButtons →
          maxButtons = XBOXDEVICE.maxButtonsCount x.serviceCounts.1 x.serviceCounts.2.1
            x.buttons.length) := by
  refine ⟨?_, ?_, ?_, ?_, ?_, ?_, ?_, ?_, rfl, rfl, ?_⟩
  · unfold XBOXDEVICE.maxInputsCount
    split_ifs <;> omega
  · unfold XBOXDEVICE.maxInputsCount
    split_ifs <;> omega
  · unfold XBOXDEVICE.maxInputsCount
    split_ifs <;> omega
  · unfold XBOXDEVICE.maxInputsSensorsCount XBOXDEVICE.maxInputsCount
    simp only []
    split_ifs <;> omega
  · unfold XBOXDEVICE.maxInputsSensorsCount XBOXDEVICE.maxInputsCount
    simp only []
    split_ifs <;> omega
  · unfold XBOXDEVICE.maxButtonsCount XBOXDEVICE.maxInputsSensorsCount
      XBOXDEVICE.maxInputsCount
    simp only []
    split_ifs <;> omega
  · unfold XBOXDEVICE.maxButtonsCount XBOXDEVICE.maxInputsSensorsCount
      XBOXDEVICE.maxInputsCount
    simp only []
    split_ifs <;> omega
  · unfold XBOXDEVICE.maxButtonsCount XBOXDEVICE.maxInputsSensorsCount
      XBOXDEVICE.maxInputsCount
    simp only []
    split_ifs <;> omega
  · intro maxButtons h
    unfold XBOXDEVICE.serviceCounts at h ⊢
    simp only [] at h ⊢
    split_ifs at h
    exact (Option.some.inj h).symm

/-- Witness of C13: 100 inputs, 5 input sensors and 5 buttons give the counts 93, 1 and 0. -/
theorem index_service_counts_witness :
    XBOXDEVICE.maxInputsCount 100 = 93
      ∧ XBOXDEVICE.maxInputsSensorsCount (XBOXDEVICE.maxInputsCount 100) 5 = 1
      ∧ XBOXDEVICE.maxButtonsCount (XBOXDEVICE.maxInputsCount 100)
          (XBOXDEVICE.maxInputsSensorsCount (XBOXDEVICE.maxInputsCount 100) 5) 5 = 0 :=
  ⟨(index_service_counts (XBOXDEVICE.new [] sampleIndexConfig) 100 5 5).1.trans (by decide),
    by decide, by decide⟩

/-! ## The platform -/

/-- C15: when `config` is missing or `config.devices` is not an array, the constructor of the
platform registers no `didFinishLaunching` listener and creates no device, and no device is
created when the event fires afterwards; otherwise the constructor registers exactly one
listener (and creates no device before the event fires). -/
theorem platform_loads_when_configured (config : Option PlatformConfig) :
    (XBOXPLATFORM.configured config = false →
        (XBOXPLATFORM.new config).listeners = []
          ∧ (XBOXPLATFORM.new config).created = []
          ∧ (XBOXPLATFORM.new config).didFinishLaunching.created = [])
      ∧ (XBOXPLATFORM.configured config = true →
          (XBOXPLATFORM.new config).listeners.length = 1
            ∧ (XBOXPLATFORM.new config).created = []) := by
  cases config with
  | none => exact ⟨fun _ => ⟨rfl, rfl, rfl⟩, fun h => by simp [XBOXPLATFORM.configured] at h⟩
  | some c =>
    obtain ⟨devices⟩ := c
    cases devices with
    | other => exact ⟨fun _ => ⟨rfl, rfl, rfl⟩, fun h => by simp [XBOXPLATFORM.configured] at h⟩
    | array l => exact ⟨fun h => by simp [XBOXPLATFORM.configured] at h, fun _ => ⟨rfl, rfl⟩⟩

/-- Witness of C15: a configuration with one complete device registers one listener, which
creates the device when the event fires; a configuration whose `devices` is not an array
registers none. -/
theorem platform_loads_when_configured_witness :
    (XBOXPLATFORM.new (some samplePlatformConfig)).listeners.length = 1
      ∧ (XBOXPLATFORM.new (some (PlatformConfig.mk DevicesValue.other))).listeners = [] :=
  ⟨((platform_loads_when_configured (some samplePlatformConfig)).2 rfl).1,
    ((platform_loads_when_configured (some (PlatformConfig.mk DevicesValue.other))).1 rfl).1⟩

/-! ## The number of input services of `xboxdevice.js` -/

namespace XboxDevice

theorem inputsLoop_inputSourceCount (l : List Input) (d : XboxDevice) (i : Nat) :
    (inputsLoop d i l).inputSourceCount = d.inputSourceCount + l.length := by
  induction l generalizing d i with
  | nil => rfl
  | cons x l ih =>
    rw [inputsLoop, ih]
    simp [inputSourceCount, List.countP_append, Service.isInputSource]
    omega

theorem sensorsLoop_inputSourceCount (l : List SensorInput) (d : XboxDevice) (i : Nat) :
    (sensorsLoop d i l).1.inputSourceCount = d.inputSourceCount := by
  induction l generalizing d i with
  | nil => rfl
  | cons x l ih =>
    rw [sensorsLoop]
    split_ifs
    · rfl
    · rw [ih]
      simp [inputSourceCount, List.countP_append, Service.isInputSource]

theorem buttonsLoop_inputSourceCount (l : List Button) (d : XboxDevice) (i : Nat) :
    (buttonsLoop d i l).1.inputSourceCount = d.inputSourceCount := by
  induction l generalizing d i with
  | nil => rfl
  | cons x l ih =>
    rw [buttonsLoop]
    split_ifs
    · rfl
    · rw [ih]
      simp [inputSourceCount, List.countP_append, Service.isInputSource]

theorem prepareVolumeService_inputSourceCount (d : XboxDevice) :
    (prepareVolumeService d).inputSourceCount = d.inputSourceCount := by
  unfold prepareVolumeService
  simp only []
  split_ifs <;> simp [inputSourceCount, List.countP_append, Service.isInputSource]

theorem prepareSensorServices_inputSourceCount (d : XboxDevice) :
    (prepareSensorServices d).inputSourceCount = d.inputSourceCount := by
  unfold prepareSensorServices
  simp only []
  split_ifs <;> simp [inputSourceCount, List.countP_append, Service.isInputSource]

theorem prepareMainServices_inputSourceCount (d : XboxDevice) :
    (prepareMainServices d).inputSourceCount = d.inputSourceCount := by
  simp [prepareMainServices, inputSourceCount, List.countP_append, Service.isInputSource]

theorem prepareMainServices_length (d : XboxDevice) :
    (prepareMainServices d).allServices.length = d.allServices.length + 3 := by
  simp [prepareMainServices]

theorem prepareInputs_inputSourceCount (d : XboxDevice) :
    (prepareInputs d).inputSourceCount
      = d.inputSourceCount
        + min (filterInputs d d.savedInputs).length (85 - d.allServices.length) := by
  unfold prepareInputs
  simp only []
  rw [inputsLoop_inputSourceCount, List.length_take]
  unfold maxInputsCount
  simp only []
  split_ifs <;> omega

/-- The number of input services after `prepareAccessory()`: the inputs kept by the filter,
capped so that `allServices` (with the information, television and speaker services) has at
most 85 entries at the end of the inputs loop. -/
theorem prepareAccessory_inputSourceCount (d : XboxDevice) :
    (prepareAccessory d).1.inputSourceCount
      = d.inputSourceCount
        + min (filterInputs d d.savedInputs).length (85 - (d.allServices.length + 3)) := by
  have hin : (prepareInputs (prepareMainServices d)).inputSourceCount
      = d.inputSourceCount
        + min (filterInputs d d.savedInputs).length (85 - (d.allServices.length + 3)) := by
    rw [prepareInputs_inputSourceCount, prepareMainServices_inputSourceCount,
      prepareMainServices_length]
    rfl
  unfold prepareAccessory
  simp only []
  split_ifs <;>
    simp only [sensorsLoop_inputSourceCount, buttonsLoop_inputSourceCount,
      prepareSensorServices_inputSourceCount, prepareVolumeService_inputSourceCount, hin]

end XboxDevice

/-- C12 (counterexample): on a freshly constructed device whose saved inputs are 85 inputs,
all kept by the filter, `prepareAccessory` creates 82 input services, not `min(85, 85)`. -/
theorem fresh_device_input_sources_capped_at_82 :
    ((XboxDevice.fresh sampleDefaultInputs sampleConfig (List.replicate 85 sampleInput) []
        []).filterInputs (List.replicate 85 sampleInput)).length = 85
      ∧ (XboxDevice.prepareAccessory
          (XboxDevice.fresh sampleDefaultInputs sampleConfig (List.replicate 85 sampleInput) []
            [])).1.inputSourceCount = 82
      ∧ min 85 85 ≠ 82 := by
  have hf : (XboxDevice.fresh sampleDefaultInputs sampleConfig (List.replicate 85 sampleInput)
      [] []).filterInputs (List.replicate 85 sampleInput) = List.replicate 85 sampleInput := by
    rw [filterInputs_eq_filter]
    have hk : ∀ i : Input, keptByFlags ((XboxDevice.fresh sampleDefaultInputs sampleConfig
        (List.replicate 85 sampleInput) [] []).getInputsFromDevice == some true)
        (XboxDevice.fresh sampleDefaultInputs sampleConfig (List.replicate 85 sampleInput) []
          []).filterGames
        (XboxDevice.fresh sampleDefaultInputs sampleConfig (List.replicate 85 sampleInput) []
          []).filterApps
        (XboxDevice.fresh sampleDefaultInputs sampleConfig (List.replicate 85 sampleInput) []
          []).filterSystemApps
        (XboxDevice.fresh sampleDefaultInputs sampleConfig (List.replicate 85 sampleInput) []
          []).filterDlc i = true := fun _ => rfl
    exact List.filter_eq_self.mpr (fun i _ => hk i)
  refine ⟨by rw [hf]; simp, ?_, by decide⟩
  rw [XboxDevice.prepareAccessory_inputSourceCount]
  have hs : (XboxDevice.fresh sampleDefaultInputs sampleConfig (List.replicate 85 sampleInput)
      [] []).savedInputs = List.replicate 85 sampleInput := rfl
  rw [hs, hf]
  have h0 : (XboxDevice.fresh sampleDefaultInputs sampleConfig (List.replicate 85 sampleInput)
      [] []).inputSourceCount = 0 := rfl
  have hl : (XboxDevice.fresh sampleDefaultInputs sampleConfig (List.replicate 85 sampleInput)
      [] []).allServices.length = 0 := rfl
  rw [h0, hl]
  simp

/-- C12 (amended): in `prepareAccessory` on a freshly constructed device, for every list of
saved inputs (and every saved names and visibilities) the number of input source services
created equals `min(number of inputs left after filtering, 82)`: the cap of 85 counts the
information, television and speaker services that `allServices` already holds. -/
theorem fresh_device_input_source_count (DefaultInputs : List Input) (device : DeviceConfig)
    (savedInputs : List Input) (savedInputsNames : List (String × String))
    (savedInputsTargetVisibility : List (String × Nat)) :
    (XboxDevice.prepareAccessory (XboxDevice.fresh DefaultInputs device savedInputs
        savedInputsNames savedInputsTargetVisibility)).1.inputSourceCount
      = min ((XboxDevice.fresh DefaultInputs device savedInputs savedInputsNames
          savedInputsTargetVisibility).filterInputs savedInputs).length 82 := by
  rw [XboxDevice.prepareAccessory_inputSourceCount]
  have hs : (XboxDevice.fresh DefaultInputs device savedInputs savedInputsNames
      savedInputsTargetVisibility).savedInputs = savedInputs := rfl
  have h0 : (XboxDevice.fresh DefaultInputs device savedInputs savedInputsNames
      savedInputsTargetVisibility).inputSourceCount = 0 := rfl
  have hl : (XboxDevice.fresh DefaultInputs device savedInputs savedInputsNames
      savedInputsTargetVisibility).allServices.length = 0 := rfl
  rw [hs, h0, hl]
  simp

/-! ## Power, mute and the media state label of `xboxdevice.js` -/

/-- A request equal to the current power sends nothing. -/
theorem activeOnSet_same_power (d : XboxDevice) (callError : Option String) :
    (d.activeOnSet d.power callError).effects = [] := by
  simp [XboxDevice.activeOnSet]

/-- With `webApiPowerOnOff` set to `true` (which the constructor allows only together with
`webApiControl`), a request that differs from the current power sends exactly one power
command through the web API, in the requested direction. -/
theorem activeOnSet_webApi (d : XboxDevice) (state : Bool) (callError : Option String)
    (hw : d.webApiPowerOnOff = some true) (hc : d.webApiControl = true)
    (hs : d.power ≠ state) :
    (d.activeOnSet state callError).effects.filter Effect.isPowerCommand
      = [Effect.webApiSend (some "Power") (some (if state then "WakeUp" else "TurnOff"))
          none] := by
  unfold XboxDevice.activeOnSet
  cases hp : d.power <;> cases state <;> simp [hp] at hs
    <;> cases callError
    <;> simp [hw, hc, webApiSend, logOrError, logInfo, Effect.isPowerCommand, List.filter_cons]

/-- With `webApiPowerOnOff` set to `false`, a request that differs from the current power
calls exactly one of `powerOn()` and `powerOff()` of the local API, in the requested
direction. -/
theorem activeOnSet_local (d : XboxDevice) (state : Bool) (callError : Option String)
    (hw : d.webApiPowerOnOff = some false) (hs : d.power ≠ state) :
    (d.activeOnSet state callError).effects.filter Effect.isPowerCommand
      = [if state then Effect.powerOn else Effect.powerOff] := by
  unfold XboxDevice.activeOnSet
  cases hp : d.power <;> cases state <;> simp [hp] at hs
    <;> cases callError
    <;> simp [hw, logOrError, logInfo, Effect.isPowerCommand, List.filter_cons]

/-- C16 (the code at the failing input): the device built from a configuration with
`webApiControl` set and `webApiPowerOnOff` not set has `webApiPowerOnOff` undefined and the
power off; a request to turn the power on matches neither case of the `switch`: the handler
sends no power command and logs `set Power: ON`. -/
theorem active_onSet_unset_sends_no_command :
    (XboxDevice.new sampleDefaultInputs sampleUnsetConfig).webApiPowerOnOff = none
      ∧ (XboxDevice.new sampleDefaultInputs sampleUnsetConfig).power = false
      ∧ (handle sampleTables (XboxDevice.new sampleDefaultInputs sampleUnsetConfig)
          (Handler.activeOnSet true none)).effects = [Effect.emit "message" "set Power: ON"]
      ∧ (handle sampleTables (XboxDevice.new sampleDefaultInputs sampleUnsetConfig)
          (Handler.activeOnSet true none)).effects.filter Effect.isPowerCommand = [] := by
  decide

/-- C17 (the code at the failing input): setting `Mute` to `true` on a device with the web API
enabled sends no command; the handler only emits the error of reading the undeclared
`volumeSelector`, whatever the device and the requested state are. The listener of the MQTT
key `Mute` on the same device sends `('Audio', 'Mute')`, and the handler of `index.js` calls
`mute` when the power is on and the web API is enabled. -/
theorem mute_onSet_sends_no_command :
    (handle sampleTables (XboxDevice.new sampleDefaultInputs sampleConfig)
        (Handler.muteOnSet true)).effects
        = [Effect.emit "error" "set Mute error: ReferenceError: volumeSelector is not defined"]
      ∧ (∀ (tables : CommandTables) (d : XboxDevice) (state : Bool),
          (handle tables d (Handler.muteOnSet state)).effects.filter Effect.isCommand = [])
      ∧ (XboxDevice.mqttCommand (XboxDevice.new sampleDefaultInputs sampleConfig) "Mute"
          (XboxDevice.MqttValue.bool true) none).1
        = [Effect.webApiSend (some "Audio") (some "Mute") none]
      ∧ (XBOXDEVICE.muteOnSet
          { XBOXDEVICE.new sampleDefaultInputs sampleIndexConfig with
            power := true, webApiEnabled := true } true none).effects
        = [IndexEffect.mute] := by
  refine ⟨by decide, fun _ _ _ => rfl, by decide, by decide⟩

/-- C18 (the code at the failing input): for the Xbox media state 0, documented as STOP, the
`CurrentMediaState` getter returns the HomeKit value 2, whose name is STOP, and the getter
of `index.js` logs `STOP`, but the listener of `stateChanged` reports `Media State: PLAY`;
the labels of the media states 1 and 2 are `PAUSE` and `STOPPED` for the documented PLAY and
PAUSE. -/
theorem state_changed_media_label_mismatch :
    xboxMediaStateName 0 = some "STOP"
      ∧ (handle sampleTables (XboxDevice.new sampleDefaultInputs sampleConfig)
          Handler.currentMediaStateOnGet).value = some (HapValue.num 2)
      ∧ homeKitMediaStateName 2 = some "STOP"
      ∧ (XBOXDEVICE.new sampleDefaultInputs sampleIndexConfig).mediaStateLabel = "STOP"
      ∧ XboxDevice.mediaStateLabel 0 = "PLAY"
      ∧ Effect.emit "message" "Media State: PLAY"
          ∈ (handle sampleTables (XboxDevice.new sampleDefaultInputs sampleConfig)
              (Handler.stateChanged true 30 false 0 "" "Game.One")).effects
      ∧ XboxDevice.mediaStateLabel 1 = "PAUSE" ∧ xboxMediaStateName 1 = some "PLAY"
      ∧ XboxDevice.mediaStateLabel 2 = "STOPPED" ∧ xboxMediaStateName 2 = some "PAUSE" := by
  decide

end XboxTv
